import Mathlib

/-!
# gcpporm.h : a generic repository over an embedded SQL engine

The development has three layers.

* The C-level value domain: `int` is a 32-bit signed integer, strings handed to
  the engine are C strings (cut at the first NUL character).
* A reference model of the embedded engine (`World` and the `sqlite3_*`
  primitives).  The engine is an external collaborator of `gcpporm.h`; the
  model keeps one database with the two tables `users` and `books`, the live
  prepared statements, a schedule of injected failures, the last error text,
  the sequence of engine calls made so far and the diagnostic stream.
* The code of `gcpporm.h` itself: `DB`, `User`, `Book` and `Repository`,
  written as state-passing functions over `World`, call for call as in the
  header.
-/

namespace Gcpporm

/-! ## C values -/

/-- Smallest value of a C `int`. -/
def INT_MIN : Int := -2147483648

/-- Largest value of a C `int`. -/
def INT_MAX : Int := 2147483647

/-- Largest value of a 64-bit row id. -/
def INT64_MAX : Int := 9223372036854775807

/-- The integer is representable as a C `int`. -/
def isInt (x : Int) : Prop := INT_MIN ≤ x ∧ x ≤ INT_MAX

instance instDecidableIsInt (x : Int) : Decidable (isInt x) := by
  unfold isInt; infer_instance

/-- Conversion of a 64-bit engine integer to a C `int`: the lower 32 bits, read
as a signed number. -/
def toInt32 (x : Int) : Int := (x + 2147483648) % 4294967296 - 2147483648

/-- The C string seen through `c_str()` / `const char*`: the characters before
the first NUL. -/
def cstr (s : String) : String := ⟨s.data.takeWhile (fun c => c ≠ Char.ofNat 0)⟩

/-! ## Engine result codes -/

def SQLITE_OK : Int := 0
def SQLITE_MISUSE : Int := 21
def SQLITE_RANGE : Int := 25
def SQLITE_ROW : Int := 100
def SQLITE_DONE : Int := 101

/-- Failure codes of the engine. -/
inductive Err where
  | error | busy | locked | nomem | readonly | interrupt | ioerr | corrupt
  | full | cantopen | constraint | misuse
  deriving DecidableEq, Repr

/-- Numeric value of a failure code. -/
def Err.code : Err → Int
  | .error => 1
  | .busy => 5
  | .locked => 6
  | .nomem => 7
  | .readonly => 8
  | .interrupt => 9
  | .ioerr => 10
  | .corrupt => 11
  | .full => 13
  | .cantopen => 14
  | .constraint => 19
  | .misuse => 21

/-- English text of a failure code. -/
def Err.str : Err → String
  | .error => "SQL logic error"
  | .busy => "database is locked"
  | .locked => "database table is locked"
  | .nomem => "out of memory"
  | .readonly => "attempt to write a readonly database"
  | .interrupt => "interrupted"
  | .ioerr => "disk I/O error"
  | .corrupt => "database disk image is malformed"
  | .full => "database or disk is full"
  | .cantopen => "unable to open database file"
  | .constraint => "constraint failed"
  | .misuse => "bad parameter or other API misuse"

/-! ## Stored data -/

/-- A stored or bound SQL value. -/
inductive Value where
  | null
  | int (i : Int)
  | text (s : String)
  deriving DecidableEq, Repr

/-- Value of the leading decimal digits of a character list. -/
def digitsValue : List Char → Nat → Nat
  | [], acc => acc
  | c :: cs, acc => if c.isDigit then digitsValue cs (acc * 10 + (c.toNat - 48)) else acc

/-- Integer read from the numeric start of a text (leading blanks and one sign
allowed, the rest ignored). -/
def textToInt (s : String) : Int :=
  match s.data.dropWhile (fun c => c = ' ') with
  | '-' :: cs => - (digitsValue cs 0 : Int)
  | '+' :: cs => (digitsValue cs 0 : Int)
  | cs => (digitsValue cs 0 : Int)

/-- What `sqlite3_column_int` answers for a value: NULL is 0, an integer is cut
to its lower 32 bits, a text is converted. -/
def Value.asInt : Value → Int
  | .null => 0
  | .int i => toInt32 i
  | .text s => toInt32 (textToInt s)

/-- What `sqlite3_column_text` answers for a value: NULL is the null pointer. -/
def Value.asText : Value → Option String
  | .null => none
  | .int i => some (toString i)
  | .text s => some s

/-- One row of a three-column table: the integer primary key and two more
columns. -/
structure Row where
  rowid : Int
  c1 : Value
  c2 : Value
  deriving DecidableEq, Repr

/-- Column `i` of a row; there are three columns. -/
def Row.col (r : Row) : Nat → Option Value
  | 0 => some (.int r.rowid)
  | 1 => some r.c1
  | 2 => some r.c2
  | _ => none

/-- A table with an AUTOINCREMENT primary key: the rows in storage order and the
largest row id ever handed out. -/
structure Table where
  rows : List Row
  seq : Int
  deriving DecidableEq, Repr

/-- Largest row id present, 0 for an empty table. -/
def maxRowid : List Row → Int
  | [] => 0
  | r :: rs => max r.rowid (maxRowid rs)

/-- The id the engine gives the next inserted row: one more than every id ever
used. -/
def Table.nextRowid (t : Table) : Int := max t.seq (maxRowid t.rows) + 1

/-- The two tables of the schema. -/
inductive Tbl where
  | users | books
  deriving DecidableEq, Repr

/-- The database: each table is absent or present. -/
structure Data where
  users : Option Table
  books : Option Table
  deriving DecidableEq, Repr

def Data.table (d : Data) : Tbl → Option Table
  | .users => d.users
  | .books => d.books

def Data.setTable (d : Data) (t : Tbl) (v : Table) : Data :=
  match t with
  | .users => { d with users := some v }
  | .books => { d with books := some v }

/-! ## Statements -/

/-- The statements the engine model understands. -/
inductive Sql where
  | createTable (t : Tbl)
  | insert (t : Tbl)
  | update (t : Tbl)
  | selectAll (t : Tbl)
  | selectById (t : Tbl)
  | deleteById (t : Tbl)
  deriving DecidableEq, Repr

/-- The engine model accepts exactly the statement texts that `gcpporm.h`
produces; every other text is rejected when it is compiled. -/
def parseSql (q : String) : Option Sql :=
  if q = "CREATE TABLE IF NOT EXISTS users (id INTEGER PRIMARY KEY AUTOINCREMENT, name TEXT, age INT);" then
    some (.createTable .users)
  else if q = "CREATE TABLE IF NOT EXISTS books (id INTEGER PRIMARY KEY AUTOINCREMENT, title TEXT, user_id INT, FOREIGN KEY(user_id) REFERENCES users(id));" then
    some (.createTable .books)
  else if q = "INSERT INTO users(name, age) VALUES(?, ?);" then some (.insert .users)
  else if q = "INSERT INTO books(title, user_id) VALUES(?, ?);" then some (.insert .books)
  else if q = "UPDATE users SET name = ?, age = ? WHERE id = ?;" then some (.update .users)
  else if q = "SELECT * FROM users;" then some (.selectAll .users)
  else if q = "SELECT * FROM books;" then some (.selectAll .books)
  else if q = "SELECT * FROM users WHERE id = ?;" then some (.selectById .users)
  else if q = "SELECT * FROM books WHERE id = ?;" then some (.selectById .books)
  else if q = "DELETE FROM users WHERE id = ?;" then some (.deleteById .users)
  else if q = "DELETE FROM books WHERE id = ?;" then some (.deleteById .books)
  else none

/-- Number of `?` placeholders of a statement. -/
def Sql.nParams : Sql → Nat
  | .createTable _ => 0
  | .insert _ => 2
  | .update _ => 3
  | .selectAll _ => 0
  | .selectById _ => 1
  | .deleteById _ => 1

/-- The table a statement works on. -/
def Sql.tbl : Sql → Tbl
  | .createTable t => t
  | .insert t => t
  | .update t => t
  | .selectAll t => t
  | .selectById t => t
  | .deleteById t => t

/-- A statement other than CREATE TABLE compiles only when its table exists. -/
def Sql.compiles (sql : Sql) (d : Data) : Bool :=
  match sql with
  | .createTable _ => true
  | _ => (d.table sql.tbl).isSome

/-- The comparison `id = ?` of a WHERE clause: true only for an integer
parameter equal to the row id. -/
def matchesId (v : Value) (rowid : Int) : Bool :=
  match v with
  | .int i => decide (i = rowid)
  | _ => false

/-- Parameter `?i` (counted from 1) of a parameter list, NULL when unbound. -/
def param (ps : List Value) (i : Nat) : Value := ps.getD (i - 1) .null

/-- Running a statement with its parameters against the data: the new data and
the result rows, or a failure. -/
def evalSql (sql : Sql) (ps : List Value) (d : Data) : Except Err (Data × List Row) :=
  match sql with
  | .createTable t =>
    match d.table t with
    | some _ => .ok (d, [])
    | none => .ok (d.setTable t ⟨[], 0⟩, [])
  | .insert t =>
    match d.table t with
    | none => .error .error
    | some tb =>
      if tb.nextRowid > INT64_MAX then .error .full
      else .ok (d.setTable t ⟨tb.rows ++ [⟨tb.nextRowid, param ps 1, param ps 2⟩], tb.nextRowid⟩, [])
  | .update t =>
    match d.table t with
    | none => .error .error
    | some tb =>
      .ok (d.setTable t
        ⟨tb.rows.map (fun r =>
            if matchesId (param ps 3) r.rowid then ⟨r.rowid, param ps 1, param ps 2⟩ else r),
          tb.seq⟩, [])
  | .selectAll t =>
    match d.table t with
    | none => .error .error
    | some tb => .ok (d, tb.rows)
  | .selectById t =>
    match d.table t with
    | none => .error .error
    | some tb => .ok (d, tb.rows.filter (fun r => matchesId (param ps 1) r.rowid))
  | .deleteById t =>
    match d.table t with
    | none => .error .error
    | some tb =>
      .ok (d.setTable t ⟨tb.rows.filter (fun r => !matchesId (param ps 1) r.rowid), tb.seq⟩, [])

/-- Where the cursor of a prepared statement stands. -/
inductive Cursor where
  | fresh
  | onRow (cur : Row) (rest : List Row)
  | done
  deriving DecidableEq, Repr

/-- A live prepared statement. -/
structure Stmt where
  id : Nat
  conn : Nat
  sql : Sql
  params : List Value
  cursor : Cursor
  deriving DecidableEq, Repr

/-- A connection handle the engine has given out; `usable` is false for the
handle of a failed open. -/
structure Conn where
  id : Nat
  usable : Bool
  deriving DecidableEq, Repr

/-- The calls made to the engine. -/
inductive Call where
  | open (name : String) (result : Option Nat)
  | close (db : Option Nat)
  | exec (db : Option Nat) (q : String)
  | errmsg (db : Option Nat)
  | free
  | prepare_v2 (db : Option Nat) (q : String) (result : Option Nat)
  | bind_text (stmt : Option Nat) (idx : Nat) (text : String)
  | bind_int (stmt : Option Nat) (idx : Nat) (v : Int)
  | step (stmt : Option Nat)
  | column_int (stmt : Option Nat) (i : Nat)
  | column_text (stmt : Option Nat) (i : Nat)
  | finalize (stmt : Option Nat)
  deriving DecidableEq, Repr

/-- The engine and the diagnostic stream. -/
structure World where
  conns : List Conn
  data : Data
  stmts : List Stmt
  faults : List (Option Err)
  errmsg : String
  log : List Call
  cerr : List String
  deriving DecidableEq, Repr

/-- Record an engine call. -/
def World.logCall (w : World) (c : Call) : World := { w with log := w.log ++ [c] }

/-- Write a line to `cerr`. -/
def World.print (w : World) (line : String) : World := { w with cerr := w.cerr ++ [line] }

/-- The first entry of a failure schedule; an empty schedule holds no failure. -/
def nextFault : List (Option Err) → Option Err
  | [] => none
  | f :: _ => f

/-- The failure scheduled for the next engine call that can fail, if any. -/
def World.fault (w : World) : Option Err := nextFault w.faults

/-- The world after the next entry of the failure schedule is used up. -/
def World.popFault (w : World) : World := { w with faults := w.faults.tail }

/-- A handle not yet in use: one more than every connection id. -/
def freshConn : List Conn → Nat
  | [] => 1
  | c :: cs => max (c.id + 1) (freshConn cs)

/-- A handle not yet in use: one more than every statement id. -/
def freshStmt : List Stmt → Nat
  | [] => 1
  | s :: ss => max (s.id + 1) (freshStmt ss)

/-- The handle names a connection that was opened successfully and not closed. -/
def connUsable (db : Option Nat) (conns : List Conn) : Bool :=
  match db with
  | none => false
  | some h => conns.any (fun c => c.id == h && c.usable)

/-- The live statement with handle `h`. -/
def findStmt (h : Nat) : List Stmt → Option Stmt
  | [] => none
  | s :: ss => if s.id = h then some s else findStmt h ss

/-- Replace the live statement that has the handle of `st`. -/
def updateStmt (st : Stmt) : List Stmt → List Stmt
  | [] => []
  | s :: ss => if s.id = st.id then st :: ss else s :: updateStmt st ss

/-- Drop the live statement with handle `h`. -/
def removeStmt (h : Nat) : List Stmt → List Stmt
  | [] => []
  | s :: ss => if s.id = h then ss else s :: removeStmt h ss

/-- Drop the connection with handle `h`. -/
def removeConn (h : Nat) : List Conn → List Conn
  | [] => []
  | c :: cs => if c.id = h then cs else c :: removeConn h cs

/-! ## Engine primitives -/

/-- Model of `sqlite3_open`: a handle is given out also when the open fails,
then in the unusable state. -/
def sqlite3_open (name : String) (w : World) : Int × Option Nat × World :=
  let h := freshConn w.conns
  let w1 := w.logCall (.open (cstr name) (some h))
  let w2 := w1.popFault
  match w1.fault with
  | some e =>
    (e.code, some h, { w2 with conns := ⟨h, false⟩ :: w2.conns, errmsg := e.str })
  | none =>
    (SQLITE_OK, some h, { w2 with conns := ⟨h, true⟩ :: w2.conns, errmsg := "not an error" })

/-- Model of `sqlite3_close`: a null handle is a harmless no-op; a connection
with live statements stays open and answers busy. -/
def sqlite3_close (db : Option Nat) (w : World) : Int × World :=
  let w1 := w.logCall (.close db)
  match db with
  | none => (SQLITE_OK, w1)
  | some h =>
    if w1.conns.any (fun c => c.id == h) then
      if w1.stmts.any (fun s => s.conn == h) then (Err.busy.code, w1)
      else (SQLITE_OK, { w1 with conns := removeConn h w1.conns })
    else (SQLITE_MISUSE, w1)

/-- Model of `sqlite3_errmsg`: the text of the last failure; for a null handle
the out-of-memory text. -/
def sqlite3_errmsg (db : Option Nat) (w : World) : String × World :=
  let w1 := w.logCall (.errmsg db)
  match db with
  | none => (Err.nomem.str, w1)
  | some _ => (w1.errmsg, w1)

/-- Model of `sqlite3_free`. -/
def sqlite3_free (w : World) : World := w.logCall .free

/-- Model of `sqlite3_exec` without callback: the statement text (a C string)
is compiled and run to completion with no parameter bound; on failure an error
text is handed back. -/
def sqlite3_exec (db : Option Nat) (q : String) (w : World) : Int × Option String × World :=
  let w1 := w.logCall (.exec db (cstr q))
  if connUsable db w1.conns then
    let w2 := w1.popFault
    match w1.fault with
    | some e => (e.code, some e.str, { w2 with errmsg := e.str })
    | none =>
      match parseSql (cstr q) with
      | none => (Err.error.code, some "syntax error", { w2 with errmsg := "syntax error" })
      | some sql =>
        if sql.compiles w2.data then
          match evalSql sql [] w2.data with
          | .error e => (e.code, some e.str, { w2 with errmsg := e.str })
          | .ok (d, _) => (SQLITE_OK, none, { w2 with data := d })
        else (Err.error.code, some "no such table", { w2 with errmsg := "no such table" })
  else (SQLITE_MISUSE, none, w1)

/-- The statement text the engine reads from `zSql`: up to the first NUL, and
within the first `nByte` characters when `nByte` is not negative. -/
def sqlText (zSql : String) (nByte : Int) : String :=
  if nByte < 0 then cstr zSql else cstr ⟨zSql.data.take nByte.toNat⟩

/-- Model of `sqlite3_prepare_v2(db, zSql, nByte, &stmt, nullptr)`: on success
a new live statement with all parameters NULL; on every failure the statement
pointer is set to null. -/
def sqlite3_prepare_v2 (db : Option Nat) (zSql : String) (nByte : Int) (w : World) :
    Int × Option Nat × World :=
  let q := sqlText zSql nByte
  if connUsable db w.conns then
    let w2 := w.popFault
    match w.fault with
    | some e =>
      (e.code, none, { (w2.logCall (.prepare_v2 db q none)) with errmsg := e.str })
    | none =>
      match parseSql q with
      | none =>
        (Err.error.code, none, { (w2.logCall (.prepare_v2 db q none)) with errmsg := "syntax error" })
      | some sql =>
        if sql.compiles w2.data then
          let h := freshStmt w2.stmts
          (SQLITE_OK, some h,
            { (w2.logCall (.prepare_v2 db q (some h))) with
              stmts := ⟨h, db.getD 0, sql, List.replicate sql.nParams .null, .fresh⟩ :: w2.stmts })
        else
          (Err.error.code, none, { (w2.logCall (.prepare_v2 db q none)) with errmsg := "no such table" })
  else (SQLITE_MISUSE, none, w.logCall (.prepare_v2 db q none))

/-- Binding of parameter `idx` (counted from 1): refused on a null or dead
statement, on a statement already stepped, and on an index out of range. -/
def bindParam (stmt : Option Nat) (idx : Nat) (v : Value) (w : World) : Int × World :=
  match stmt with
  | none => (SQLITE_MISUSE, w)
  | some h =>
    match findStmt h w.stmts with
    | none => (SQLITE_MISUSE, w)
    | some st =>
      if st.cursor = .fresh then
        if 1 ≤ idx ∧ idx ≤ st.sql.nParams then
          (SQLITE_OK, { w with stmts := updateStmt { st with params := st.params.set (idx - 1) v } w.stmts })
        else (SQLITE_RANGE, w)
      else (SQLITE_MISUSE, w)

/-- Model of `sqlite3_bind_text(stmt, idx, text, n, SQLITE_STATIC)`: with a
negative `n` the text is read up to its first NUL, else its first `n`
characters. -/
def sqlite3_bind_text (stmt : Option Nat) (idx : Nat) (text : String) (n : Int) (w : World) :
    Int × World :=
  bindParam stmt idx (.text (if n < 0 then cstr text else ⟨text.data.take n.toNat⟩))
    (w.logCall (.bind_text stmt idx text))

/-- Model of `sqlite3_bind_int`. -/
def sqlite3_bind_int (stmt : Option Nat) (idx : Nat) (v : Int) (w : World) : Int × World :=
  bindParam stmt idx (.int v) (w.logCall (.bind_int stmt idx v))

/-- Model of `sqlite3_step`: the first step runs the statement; each step
moves the cursor to the next result row (ROW) or past the last one (DONE). -/
def sqlite3_step (stmt : Option Nat) (w : World) : Int × World :=
  let w1 := w.logCall (.step stmt)
  match stmt with
  | none => (SQLITE_MISUSE, w1)
  | some h =>
    match findStmt h w1.stmts with
    | none => (SQLITE_MISUSE, w1)
    | some st =>
      let w2 := w1.popFault
      match w1.fault with
      | some e => (e.code, { w2 with errmsg := e.str })
      | none =>
        match st.cursor with
        | .done => (SQLITE_MISUSE, w2)
        | .onRow _ [] =>
          (SQLITE_DONE, { w2 with stmts := updateStmt { st with cursor := .done } w2.stmts })
        | .onRow _ (r :: rs) =>
          (SQLITE_ROW, { w2 with stmts := updateStmt { st with cursor := .onRow r rs } w2.stmts })
        | .fresh =>
          match evalSql st.sql st.params w2.data with
          | .error e =>
            (e.code, { w2 with errmsg := e.str,
                               stmts := updateStmt { st with cursor := .done } w2.stmts })
          | .ok (d, []) =>
            (SQLITE_DONE, { w2 with data := d,
                                    stmts := updateStmt { st with cursor := .done } w2.stmts })
          | .ok (d, r :: rs) =>
            (SQLITE_ROW, { w2 with data := d,
                                   stmts := updateStmt { st with cursor := .onRow r rs } w2.stmts })

/-- The value of column `i` of the row the statement stands on; NULL when there
is no such row or column. -/
def columnValue (stmt : Option Nat) (i : Nat) (w : World) : Value :=
  match stmt with
  | none => .null
  | some h =>
    match findStmt h w.stmts with
    | some st =>
      match st.cursor with
      | .onRow cur _ => (cur.col i).getD .null
      | _ => .null
    | none => .null

/-- Model of `sqlite3_column_int`. -/
def sqlite3_column_int (stmt : Option Nat) (i : Nat) (w : World) : Int × World :=
  ((columnValue stmt i w).asInt, w.logCall (.column_int stmt i))

/-- Model of `sqlite3_column_text`; `none` is the null pointer. -/
def sqlite3_column_text (stmt : Option Nat) (i : Nat) (w : World) : Option String × World :=
  ((columnValue stmt i w).asText, w.logCall (.column_text stmt i))

/-- Model of `sqlite3_finalize`: a null statement is a harmless no-op. -/
def sqlite3_finalize (stmt : Option Nat) (w : World) : Int × World :=
  let w1 := w.logCall (.finalize stmt)
  match stmt with
  | none => (SQLITE_OK, w1)
  | some h => (SQLITE_OK, { w1 with stmts := removeStmt h w1.stmts })

/-! ## `class DB` -/

/-- The handle wrapper: `db` is the connection pointer, `none` for null. -/
structure DB where
  db : Option Nat
  deriving DecidableEq, Repr

/-- Constructor `DB::DB(const string& name)`. -/
def DB.new (name : String) (w : World) : DB × World :=
  let (rc, db, w1) := sqlite3_open name w
  if rc ≠ 0 then
    let (msg, w2) := sqlite3_errmsg db w1
    (⟨none⟩, w2.print ("Error opening DB: " ++ msg))
  else (⟨db⟩, w1)

/-- Destructor `DB::~DB()`. -/
def DB.destroy (self : DB) (w : World) : World :=
  if self.db.isSome then (sqlite3_close self.db w).2 else w

/-- Accessor `DB::getDB()`. -/
def DB.getDB (self : DB) : Option Nat := self.db

/-- Member `DB::execute(const string& q)`. -/
def DB.execute (self : DB) (q : String) (w : World) : Bool × World :=
  if self.db.isNone then (false, w)
  else
    let (rc, err, w1) := sqlite3_exec self.db q w
    if rc ≠ SQLITE_OK then
      let w2 := w1.print ("SQL Error: " ++ err.getD "unknown")
      let w3 := if err.isSome then sqlite3_free w2 else w2
      (false, w3)
    else (true, w1)

/-! ## `class User` -/

structure User where
  id : Int
  name : String
  age : Int
  deriving DecidableEq, Repr

/-- Constructor `User()`. -/
def User.default : User := ⟨0, "", 0⟩

/-- Constructor `User(string n, int a)`. -/
def User.new (n : String) (a : Int) : User := ⟨0, n, a⟩

def User.tableName : String := "users"

def User.primaryKey : String := "id"

def User.createTableSQL : String :=
  "CREATE TABLE IF NOT EXISTS users (id INTEGER PRIMARY KEY AUTOINCREMENT, name TEXT, age INT);"

def User.insertSQL (_self : User) : String := "INSERT INTO users(name, age) VALUES(?, ?);"

def User.updateSQL (_self : User) : String := "UPDATE users SET name = ?, age = ? WHERE id = ?;"

/-- Static member `User::fromRow(sqlite3_stmt* stmt)`. -/
def User.fromRow (stmt : Option Nat) (w : World) : User × World :=
  let (id, w1) := sqlite3_column_int stmt 0 w
  let (txt, w2) := sqlite3_column_text stmt 1 w1
  let name := match txt with
    | some t => cstr t
    | none => ""
  let (age, w3) := sqlite3_column_int stmt 2 w2
  (⟨id, name, age⟩, w3)

/-! ## `class Book` -/

structure Book where
  id : Int
  title : String
  user_id : Int
  deriving DecidableEq, Repr

/-- Constructor `Book()`. -/
def Book.default : Book := ⟨0, "", 0⟩

/-- Constructor `Book(string t, int uid)`. -/
def Book.new (t : String) (uid : Int) : Book := ⟨0, t, uid⟩

def Book.tableName : String := "books"

def Book.primaryKey : String := "id"

def Book.createTableSQL : String :=
  "CREATE TABLE IF NOT EXISTS books (id INTEGER PRIMARY KEY AUTOINCREMENT, title TEXT, user_id INT, " ++
    "FOREIGN KEY(user_id) REFERENCES users(id));"

def Book.insertSQL (_self : Book) : String := "INSERT INTO books(title, user_id) VALUES(?, ?);"

/-- Static member `Book::fromRow(sqlite3_stmt* stmt)`. -/
def Book.fromRow (stmt : Option Nat) (w : World) : Book × World :=
  let (id, w1) := sqlite3_column_int stmt 0 w
  let (t, w2) := sqlite3_column_text stmt 1 w1
  let title := match t with
    | some s => cstr s
    | none => ""
  let (uid, w3) := sqlite3_column_int stmt 2 w2
  (⟨id, title, uid⟩, w3)

/-! ## `template <typename T> class Repository` -/

/-- Private overload `bindAndExecuteInsert(const User& u, sqlite3_stmt* stmt)`. -/
def bindAndExecuteInsertUser (u : User) (stmt : Option Nat) (w : World) : Bool × World :=
  let (_, w1) := sqlite3_bind_text stmt 1 u.name (-1) w
  let (_, w2) := sqlite3_bind_int stmt 2 u.age w1
  let (rc, w3) := sqlite3_step stmt w2
  (decide (rc = SQLITE_DONE), w3)

/-- Private overload `bindAndExecuteUpdate(const User& u, sqlite3_stmt* stmt)`. -/
def bindAndExecuteUpdate (u : User) (stmt : Option Nat) (w : World) : Bool × World :=
  let (_, w1) := sqlite3_bind_text stmt 1 u.name (-1) w
  let (_, w2) := sqlite3_bind_int stmt 2 u.age w1
  let (_, w3) := sqlite3_bind_int stmt 3 u.id w2
  let (rc, w4) := sqlite3_step stmt w3
  (decide (rc = SQLITE_DONE), w4)

/-- Private overload `bindAndExecuteInsert(const Book& b, sqlite3_stmt* stmt)`. -/
def bindAndExecuteInsertBook (b : Book) (stmt : Option Nat) (w : World) : Bool × World :=
  let (_, w1) := sqlite3_bind_text stmt 1 b.title (-1) w
  let (_, w2) := sqlite3_bind_int stmt 2 b.user_id w1
  let (rc, w3) := sqlite3_step stmt w2
  (decide (rc = SQLITE_DONE), w3)

/-- What the template uses of its type parameter `T`: the default constructor,
the static members, `insertSQL` and the `bindAndExecuteInsert` overload chosen
for `T`. -/
structure RecordType (T : Type) where
  default : T
  tableName : String
  primaryKey : String
  createTableSQL : String
  insertSQL : T → String
  fromRow : Option Nat → World → T × World
  bindAndExecuteInsert : T → Option Nat → World → Bool × World

/-- The instantiation `T = User`. -/
def userType : RecordType User where
  default := User.default
  tableName := User.tableName
  primaryKey := User.primaryKey
  createTableSQL := User.createTableSQL
  insertSQL := User.insertSQL
  fromRow := User.fromRow
  bindAndExecuteInsert := bindAndExecuteInsertUser

/-- The instantiation `T = Book`. -/
def bookType : RecordType Book where
  default := Book.default
  tableName := Book.tableName
  primaryKey := Book.primaryKey
  createTableSQL := Book.createTableSQL
  insertSQL := Book.insertSQL
  fromRow := Book.fromRow
  bindAndExecuteInsert := bindAndExecuteInsertBook

/-- The repository holds a reference to the handle wrapper. -/
structure Repository (T : Type) where
  db : DB

/-- Constructor `Repository(DB& database)`. -/
def Repository.new {T : Type} (R : RecordType T) (database : DB) (w : World) :
    Repository T × World :=
  let (_, w1) := database.execute R.createTableSQL w
  (⟨database⟩, w1)

/-- Member `Repository::save`. -/
def Repository.save {T : Type} (R : RecordType T) (self : Repository T) (obj : T) (w : World) :
    Bool × World :=
  let q := R.insertSQL obj
  let (rc, stmt, w1) := sqlite3_prepare_v2 self.db.getDB q (-1) w
  if rc ≠ SQLITE_OK then
    let (msg, w2) := sqlite3_errmsg self.db.getDB w1
    (false, w2.print ("Prepare failed: " ++ msg))
  else
    let (ok, w2) := R.bindAndExecuteInsert obj stmt w1
    let (_, w3) := sqlite3_finalize stmt w2
    (ok, w3)

/-- The loop `while (sqlite3_step(stmt) == SQLITE_ROW) items.push_back(T::fromRow(stmt));`
of `loadAll`, run for at most `fuel` steps; `none` when the fuel runs out. -/
def loadAllLoop {T : Type} (R : RecordType T) (stmt : Option Nat) :
    Nat → List T → World → Option (List T × World)
  | 0, _, _ => none
  | fuel + 1, items, w =>
    let (rc, w1) := sqlite3_step stmt w
    if rc = SQLITE_ROW then
      let (item, w2) := R.fromRow stmt w1
      loadAllLoop R stmt fuel (items ++ [item]) w2
    else some (items, w1)

/-- Member `Repository::loadAll`; `fuel` bounds the number of steps of its
loop. -/
def Repository.loadAll {T : Type} (R : RecordType T) (self : Repository T) (fuel : Nat)
    (w : World) : Option (List T × World) :=
  let q := "SELECT * FROM " ++ R.tableName ++ ";"
  let (rc, stmt, w1) := sqlite3_prepare_v2 self.db.getDB q (-1) w
  if rc = SQLITE_OK then
    match loadAllLoop R stmt fuel [] w1 with
    | none => none
    | some (items, w2) =>
      let (_, w3) := sqlite3_finalize stmt w2
      some (items, w3)
  else
    let (msg, w2) := sqlite3_errmsg self.db.getDB w1
    let w3 := w2.print ("Prepare failed: " ++ msg)
    let (_, w4) := sqlite3_finalize stmt w3
    some ([], w4)

/-- Member `Repository::findById`. -/
def Repository.findById {T : Type} (R : RecordType T) (self : Repository T) (id : Int)
    (w : World) : T × World :=
  let result := R.default
  let q := "SELECT * FROM " ++ R.tableName ++ " WHERE " ++ R.primaryKey ++ " = ?;"
  let (rc, stmt, w1) := sqlite3_prepare_v2 self.db.getDB q (-1) w
  if rc = SQLITE_OK then
    let (_, w2) := sqlite3_bind_int stmt 1 id w1
    let (rc2, w3) := sqlite3_step stmt w2
    if rc2 = SQLITE_ROW then
      let (row, w4) := R.fromRow stmt w3
      let (_, w5) := sqlite3_finalize stmt w4
      (row, w5)
    else
      let (_, w4) := sqlite3_finalize stmt w3
      (result, w4)
  else
    let (msg, w2) := sqlite3_errmsg self.db.getDB w1
    let w3 := w2.print ("Prepare failed: " ++ msg)
    let (_, w4) := sqlite3_finalize stmt w3
    (result, w4)

/-- Member `Repository::update`, instantiated for `User` (the only record type
with `updateSQL` and a `bindAndExecuteUpdate` overload). -/
def Repository.update (self : Repository User) (obj : User) (w : World) : Bool × World :=
  let q := obj.updateSQL
  let (rc, stmt, w1) := sqlite3_prepare_v2 self.db.getDB q (-1) w
  if rc ≠ SQLITE_OK then
    let (msg, w2) := sqlite3_errmsg self.db.getDB w1
    (false, w2.print ("Prepare failed: " ++ msg))
  else
    let (ok, w2) := bindAndExecuteUpdate obj stmt w1
    let (_, w3) := sqlite3_finalize stmt w2
    (ok, w3)

/-- Member `Repository::deleteById`. -/
def Repository.deleteById {T : Type} (R : RecordType T) (self : Repository T) (id : Int)
    (w : World) : Bool × World :=
  let q := "DELETE FROM " ++ R.tableName ++ " WHERE " ++ R.primaryKey ++ " = ?;"
  let (rc, stmt, w1) := sqlite3_prepare_v2 self.db.getDB q (-1) w
  if rc ≠ SQLITE_OK then
    let (msg, w2) := sqlite3_errmsg self.db.getDB w1
    (false, w2.print ("Prepare failed: " ++ msg))
  else
    let (_, w2) := sqlite3_bind_int stmt 1 id w1
    let (rc2, w3) := sqlite3_step stmt w2
    let (_, w4) := sqlite3_finalize stmt w3
    (decide (rc2 = SQLITE_DONE), w4)

/-! ## Specification vocabulary -/

/-- The record a `users` row reads back as through `User::fromRow`. -/
def userOfRow (r : Row) : User :=
  ⟨toInt32 r.rowid, (match r.c1.asText with | some t => cstr t | none => ""), r.c2.asInt⟩

/-- The record a `books` row reads back as through `Book::fromRow`. -/
def bookOfRow (r : Row) : Book :=
  ⟨toInt32 r.rowid, (match r.c1.asText with | some t => cstr t | none => ""), r.c2.asInt⟩

/-- The statement text a call hands to the engine, if it hands one. -/
def Call.sql : Call → Option String
  | .exec _ q => some q
  | .prepare_v2 _ q _ => some q
  | _ => none

/-- The statement texts handed to the engine by a sequence of calls. -/
def sqlTexts (l : List Call) : List String := l.filterMap Call.sql

/-- The statement a call brings to life, if any. -/
def Call.prepared : Call → Option Nat
  | .prepare_v2 _ _ r => r
  | _ => none

/-- The statement a call finalizes, if any (finalizing null finalizes nothing). -/
def Call.finalized : Call → Option Nat
  | .finalize r => r
  | _ => none

/-- The statements prepared by a sequence of calls, in order. -/
def preparedIn (l : List Call) : List Nat := l.filterMap Call.prepared

/-- The statements finalized by a sequence of calls, in order. -/
def finalizedIn (l : List Call) : List Nat := l.filterMap Call.finalized

/-! ## Effect of each primitive on the call log -/

/-- Calls that hand over no statement text, prepare nothing and finalize
nothing. -/
def quiet (l : List Call) : Prop := sqlTexts l = [] ∧ preparedIn l = [] ∧ finalizedIn l = []

/-- The record type reads a row through column accessors only. -/
def RecordType.readsQuietly {T : Type} (R : RecordType T) : Prop :=
  ∀ stmt w, ∃ l, (R.fromRow stmt w).2.log = w.log ++ l ∧ quiet l

/-- One usable connection (handle 1) and a `users` table with the given
content. -/
def usersWorld (t : Table) : World := ⟨[⟨1, true⟩], ⟨some t, none⟩, [], [], "", [], []⟩

/-- One usable connection (handle 1) on a database without tables. -/
def openWorld : World := ⟨[⟨1, true⟩], ⟨none, none⟩, [], [], "", [], []⟩

/-- A `users` table holding Alice, aged 30, on connection 1. -/
def aliceWorld : World := usersWorld ⟨[⟨1, .text "Alice", .int 30⟩], 1⟩

/-- The world `aliceWorld` after a `loadAll`: only the call log has grown. -/
def aliceLoaded : World :=
  { aliceWorld with
    log := [.prepare_v2 (some 1) "SELECT * FROM users;" (some 1), .step (some 1),
      .column_int (some 1) 0, .column_text (some 1) 1, .column_int (some 1) 2, .step (some 1),
      .finalize (some 1)] }

/-- The one-row world with the busy failure scheduled for the next engine call
and another statement (handle 3) already live. -/
def busyWorld : World :=
  { aliceWorld with
    faults := [some .busy],
    stmts := [⟨3, 1, .selectAll .users, [], .fresh⟩] }

/-- The repository over connection 1. -/
def repo1 : Repository User := ⟨⟨some 1⟩⟩

/-- A world whose statement 7 stands on a row with a NULL text column. -/
def nullRowWorld : World :=
  ⟨[⟨1, true⟩], ⟨some ⟨[⟨4, .null, .int 30⟩], 4⟩, none⟩,
    [⟨7, 1, .selectAll .users, [], .onRow ⟨4, .null, .int 30⟩ []⟩], [], "", [], []⟩

/-- A world in which the next open fails. -/
def cantOpenWorld : World := ⟨[], ⟨none, none⟩, [], [some .cantopen], "", [], []⟩

/-- The record type reads the row the statement stands on as `proj` of that
row, changing nothing but the call log. -/
def RecordType.reads {T : Type} (R : RecordType T) (proj : Row → T) : Prop :=
  ∀ (h : Nat) (w : World) (st : Stmt) (cur : Row) (rest : List Row),
    findStmt h w.stmts = some st → st.cursor = .onRow cur rest →
      ∃ l, R.fromRow (some h) w = (proj cur, { w with log := w.log ++ l })

/-- A `users` table whose last row carries the largest `int` as id. -/
def bigIdWorld : World := usersWorld ⟨[⟨2147483647, .text "Zed", .int 1⟩], 2147483647⟩

/-- A `users` table holding a row whose id does not fit a C `int`. -/
def wideIdWorld : World :=
  usersWorld ⟨[⟨1, .text "Al", .int 20⟩, ⟨4294967297, .text "Bo", .int 40⟩], 4294967297⟩

/-- Between the worlds `w` and `w1` every prepared statement was finalized
exactly once: the live statements are the same, and the calls made in between
prepared at most one statement and finalize exactly what they prepared. -/
def released (w w1 : World) : Prop :=
  w1.stmts = w.stmts ∧
    ∃ calls, w1.log = w.log ++ calls ∧ finalizedIn calls = preparedIn calls ∧
      (preparedIn calls).length ≤ 1

/-- Result rows still to be delivered by a statement. -/
def rowsLeft (st : Stmt) (d : Data) : Nat :=
  match st.cursor with
  | .fresh =>
    match evalSql st.sql st.params d with
    | .ok (_, rows) => rows.length
    | .error _ => 0
  | .onRow _ rest => rest.length
  | .done => 0

/-- Reading a row leaves the live statements as they are. -/
def RecordType.keepsStmts {T : Type} (R : RecordType T) : Prop :=
  ∀ stmt w, (R.fromRow stmt w).2.stmts = w.stmts

theorem prepare_log (db : Option Nat) (q : String) (n : Int) (w : World) :
    (sqlite3_prepare_v2 db q n w).2.2.log =
      w.log ++ [Call.prepare_v2 db (sqlText q n) (sqlite3_prepare_v2 db q n w).2.1] := by
  unfold sqlite3_prepare_v2
  simp only [World.popFault, World.logCall]
  repeat' split
  all_goals simp_all

theorem bindParam_log (stmt : Option Nat) (idx : Nat) (v : Value) (w : World) :
    (bindParam stmt idx v w).2.log = w.log := by
  unfold bindParam
  repeat' split
  all_goals simp_all

theorem bind_text_log (stmt : Option Nat) (idx : Nat) (t : String) (n : Int) (w : World) :
    (sqlite3_bind_text stmt idx t n w).2.log = w.log ++ [Call.bind_text stmt idx t] := by
  simp [sqlite3_bind_text, bindParam_log, World.logCall]

theorem bind_int_log (stmt : Option Nat) (idx : Nat) (v : Int) (w : World) :
    (sqlite3_bind_int stmt idx v w).2.log = w.log ++ [Call.bind_int stmt idx v] := by
  simp [sqlite3_bind_int, bindParam_log, World.logCall]

theorem step_log (stmt : Option Nat) (w : World) :
    (sqlite3_step stmt w).2.log = w.log ++ [Call.step stmt] := by
  unfold sqlite3_step
  simp only [World.popFault, World.logCall]
  repeat' split
  all_goals simp_all

theorem finalize_log (stmt : Option Nat) (w : World) :
    (sqlite3_finalize stmt w).2.log = w.log ++ [Call.finalize stmt] := by
  unfold sqlite3_finalize
  cases stmt <;> simp [World.logCall]

theorem errmsg_log (db : Option Nat) (w : World) :
    (sqlite3_errmsg db w).2.log = w.log ++ [Call.errmsg db] := by
  unfold sqlite3_errmsg
  cases db <;> simp [World.logCall]

theorem column_int_log (stmt : Option Nat) (i : Nat) (w : World) :
    (sqlite3_column_int stmt i w).2.log = w.log ++ [Call.column_int stmt i] := by
  simp [sqlite3_column_int, World.logCall]

theorem column_text_log (stmt : Option Nat) (i : Nat) (w : World) :
    (sqlite3_column_text stmt i w).2.log = w.log ++ [Call.column_text stmt i] := by
  simp [sqlite3_column_text, World.logCall]

theorem exec_log (db : Option Nat) (q : String) (w : World) :
    (sqlite3_exec db q w).2.2.log = w.log ++ [Call.exec db (cstr q)] := by
  unfold sqlite3_exec
  simp only [World.popFault, World.logCall]
  repeat' split
  all_goals simp_all

theorem execute_sqlTexts (db : DB) (q : String) (w : World) :
    sqlTexts (db.execute q w).2.log =
      sqlTexts w.log ++ (if db.db.isSome then [cstr q] else []) := by
  unfold DB.execute
  cases hdb : db.db with
  | none => simp
  | some c =>
    simp only [Option.isNone_some, Option.isSome_some, Bool.false_eq_true, if_false, if_true]
    split
    · split <;>
        simp [sqlTexts, World.print, sqlite3_free, World.logCall, exec_log, Call.sql,
          List.filterMap_append]
    · simp [sqlTexts, exec_log, Call.sql, List.filterMap_append]

theorem userFromRow_log (stmt : Option Nat) (w : World) :
    (User.fromRow stmt w).2.log =
      w.log ++ [Call.column_int stmt 0, Call.column_text stmt 1, Call.column_int stmt 2] := by
  simp [User.fromRow, sqlite3_column_int, sqlite3_column_text, World.logCall]

theorem bookFromRow_log (stmt : Option Nat) (w : World) :
    (Book.fromRow stmt w).2.log =
      w.log ++ [Call.column_int stmt 0, Call.column_text stmt 1, Call.column_int stmt 2] := by
  simp [Book.fromRow, sqlite3_column_int, sqlite3_column_text, World.logCall]

theorem userType_readsQuietly : userType.readsQuietly := by
  intro stmt w
  exact ⟨_, userFromRow_log stmt w, by simp [quiet, sqlTexts, preparedIn, finalizedIn, Call.sql,
    Call.prepared, Call.finalized]⟩

theorem bookType_readsQuietly : bookType.readsQuietly := by
  intro stmt w
  exact ⟨_, bookFromRow_log stmt w, by simp [quiet, sqlTexts, preparedIn, finalizedIn, Call.sql,
    Call.prepared, Call.finalized]⟩

theorem quiet_append {l1 l2 : List Call} (h1 : quiet l1) (h2 : quiet l2) : quiet (l1 ++ l2) := by
  obtain ⟨a1, b1, c1⟩ := h1
  obtain ⟨a2, b2, c2⟩ := h2
  simp only [sqlTexts, preparedIn, finalizedIn] at *
  simp [quiet, sqlTexts, preparedIn, finalizedIn, List.filterMap_append, *]

theorem loadAllLoop_log {T : Type} (R : RecordType T) (hR : R.readsQuietly) (stmt : Option Nat) :
    ∀ (fuel : Nat) (items : List T) (w : World) (r : List T × World),
      loadAllLoop R stmt fuel items w = some r → ∃ l, r.2.log = w.log ++ l ∧ quiet l := by
  intro fuel
  induction fuel with
  | zero => intro items w r h; simp [loadAllLoop] at h
  | succ n ih =>
    intro items w r h
    simp only [loadAllLoop] at h
    split at h
    · obtain ⟨l, hl, hq⟩ := ih _ _ _ h
      obtain ⟨l2, hl2, hq2⟩ := hR stmt (sqlite3_step stmt w).2
      refine ⟨[Call.step stmt] ++ (l2 ++ l), ?_, ?_⟩
      · rw [hl, hl2, step_log]; simp
      · refine quiet_append ?_ (quiet_append hq2 hq)
        simp [quiet, sqlTexts, preparedIn, finalizedIn, Call.sql, Call.prepared, Call.finalized]
    · simp only [Option.some.injEq] at h
      subst h
      refine ⟨[Call.step stmt], step_log stmt w, ?_⟩
      simp [quiet, sqlTexts, preparedIn, finalizedIn, Call.sql, Call.prepared, Call.finalized]

/-! ## The statement texts -/

theorem text_createUser :
    cstr userType.createTableSQL =
      "CREATE TABLE IF NOT EXISTS users (id INTEGER PRIMARY KEY AUTOINCREMENT, name TEXT, age INT);" := by
  decide

theorem text_insertUser (u : User) :
    sqlText (userType.insertSQL u) (-1) = "INSERT INTO users(name, age) VALUES(?, ?);" := by
  show sqlText "INSERT INTO users(name, age) VALUES(?, ?);" (-1) = _
  decide

theorem text_updateUser (u : User) :
    sqlText u.updateSQL (-1) = "UPDATE users SET name = ?, age = ? WHERE id = ?;" := by
  show sqlText "UPDATE users SET name = ?, age = ? WHERE id = ?;" (-1) = _
  decide

theorem text_selectAllUser :
    sqlText ("SELECT * FROM " ++ userType.tableName ++ ";") (-1) = "SELECT * FROM users;" := by
  decide

theorem text_selectByIdUser :
    sqlText ("SELECT * FROM " ++ userType.tableName ++ " WHERE " ++ userType.primaryKey ++ " = ?;") (-1) =
      "SELECT * FROM users WHERE id = ?;" := by
  decide

theorem text_deleteUser :
    sqlText ("DELETE FROM " ++ userType.tableName ++ " WHERE " ++ userType.primaryKey ++ " = ?;") (-1) =
      "DELETE FROM users WHERE id = ?;" := by
  decide

theorem save_sqlTexts_user (self : Repository User) (u : User) (w : World) :
    sqlTexts (Repository.save userType self u w).2.log =
      sqlTexts w.log ++ ["INSERT INTO users(name, age) VALUES(?, ?);"] := by
  unfold Repository.save
  simp only []
  split
  · simp [sqlTexts, World.print, errmsg_log, prepare_log, text_insertUser, Call.sql,
      List.filterMap_append]
  · simp [sqlTexts, userType, bindAndExecuteInsertUser, finalize_log, step_log, bind_int_log,
      bind_text_log, prepare_log, Call.sql, List.filterMap_append]
    exact text_insertUser u

theorem update_sqlTexts (self : Repository User) (u : User) (w : World) :
    sqlTexts (Repository.update self u w).2.log =
      sqlTexts w.log ++ ["UPDATE users SET name = ?, age = ? WHERE id = ?;"] := by
  unfold Repository.update
  simp only []
  split
  · simp [sqlTexts, World.print, errmsg_log, prepare_log, text_updateUser, Call.sql,
      List.filterMap_append]
  · simp [sqlTexts, bindAndExecuteUpdate, finalize_log, step_log, bind_int_log,
      bind_text_log, prepare_log, Call.sql, List.filterMap_append, text_updateUser]

theorem deleteById_sqlTexts_user (self : Repository User) (id : Int) (w : World) :
    sqlTexts (Repository.deleteById userType self id w).2.log =
      sqlTexts w.log ++ ["DELETE FROM users WHERE id = ?;"] := by
  unfold Repository.deleteById
  simp only []
  split
  · simp [sqlTexts, World.print, errmsg_log, prepare_log, text_deleteUser, Call.sql,
      List.filterMap_append]
  · simp [sqlTexts, finalize_log, step_log, bind_int_log,
      prepare_log, Call.sql, List.filterMap_append, text_deleteUser]

theorem findById_sqlTexts_user (self : Repository User) (id : Int) (w : World) :
    sqlTexts (Repository.findById userType self id w).2.log =
      sqlTexts w.log ++ ["SELECT * FROM users WHERE id = ?;"] := by
  unfold Repository.findById
  simp only []
  split
  · split
    · simp [sqlTexts, userType, userFromRow_log, finalize_log, step_log, bind_int_log,
        prepare_log, Call.sql, List.filterMap_append]
      exact text_selectByIdUser
    · simp [sqlTexts, finalize_log, step_log, bind_int_log,
        prepare_log, Call.sql, List.filterMap_append, text_selectByIdUser]
  · simp [sqlTexts, World.print, errmsg_log, finalize_log, prepare_log, text_selectByIdUser, Call.sql,
      List.filterMap_append]

theorem loadAll_sqlTexts_user (self : Repository User) (fuel : Nat) (w : World)
    (r : List User × World) (h : Repository.loadAll userType self fuel w = some r) :
    sqlTexts r.2.log = sqlTexts w.log ++ ["SELECT * FROM users;"] := by
  unfold Repository.loadAll at h
  simp only [] at h
  split at h
  · split at h
    · simp at h
    · rename_i items w2 hloop
      simp only [Option.some.injEq] at h
      subst h
      obtain ⟨l, hl, hq, -, -⟩ := loadAllLoop_log userType userType_readsQuietly _ _ _ _ _ hloop
      simp only [sqlTexts] at hq
      simp only [] at hl
      simp [sqlTexts, finalize_log, hl, prepare_log, Call.sql, List.filterMap_append, hq,
        text_selectAllUser]
  · simp only [Option.some.injEq] at h
    subst h
    simp [sqlTexts, World.print, errmsg_log, finalize_log, prepare_log, text_selectAllUser, Call.sql,
      List.filterMap_append]

/-! ## C9 -/

/-- C9 (as the code has it): for the User record type the statement text handed
to the engine is `CREATE TABLE IF NOT EXISTS users (id INTEGER PRIMARY KEY
AUTOINCREMENT, name TEXT, age INT);` on construction (when the handle is not
null), `INSERT INTO users(name, age) VALUES(?, ?);` by save,
`UPDATE users SET name = ?, age = ? WHERE id = ?;` by update,
`SELECT * FROM users;` by loadAll, `SELECT * FROM users WHERE id = ?;` by
findById and `DELETE FROM users WHERE id = ?;` by deleteById, and each call
hands over no other text. -/
theorem C9_sql_texts (db : DB) (self : Repository User) (u : User) (id : Int) (fuel : Nat)
    (w : World) :
    sqlTexts (Repository.new userType db w).2.log =
        sqlTexts w.log ++
          (if db.db.isSome then
            ["CREATE TABLE IF NOT EXISTS users (id INTEGER PRIMARY KEY AUTOINCREMENT, name TEXT, age INT);"]
           else []) ∧
      sqlTexts (Repository.save userType self u w).2.log =
        sqlTexts w.log ++ ["INSERT INTO users(name, age) VALUES(?, ?);"] ∧
      sqlTexts (Repository.update self u w).2.log =
        sqlTexts w.log ++ ["UPDATE users SET name = ?, age = ? WHERE id = ?;"] ∧
      (∀ r, Repository.loadAll userType self fuel w = some r →
        sqlTexts r.2.log = sqlTexts w.log ++ ["SELECT * FROM users;"]) ∧
      sqlTexts (Repository.findById userType self id w).2.log =
        sqlTexts w.log ++ ["SELECT * FROM users WHERE id = ?;"] ∧
      sqlTexts (Repository.deleteById userType self id w).2.log =
        sqlTexts w.log ++ ["DELETE FROM users WHERE id = ?;"] := by
  refine ⟨?_, save_sqlTexts_user self u w, update_sqlTexts self u w,
    fun r h => loadAll_sqlTexts_user self fuel w r h, findById_sqlTexts_user self id w,
    deleteById_sqlTexts_user self id w⟩
  simp only [Repository.new, execute_sqlTexts, text_createUser]

/-- C9 at a concrete input: the loadAll of a one-row table hands over exactly
`SELECT * FROM users;`. -/
theorem C9_sql_texts_witness :
    Repository.loadAll userType repo1 5 aliceWorld = some ([⟨1, "Alice", 30⟩], aliceLoaded) ∧
      sqlTexts aliceLoaded.log = sqlTexts aliceWorld.log ++ ["SELECT * FROM users;"] :=
  ⟨by decide,
    (C9_sql_texts ⟨some 1⟩ repo1 User.default 0 5 aliceWorld).2.2.2.1
      ([⟨1, "Alice", 30⟩], aliceLoaded) (by decide)⟩

/-- C9 as stated fails: the create-table text handed to the engine on
construction has a blank between `users` and `(`, and the update, lookup and
delete texts have blanks around `=`. -/
theorem C9_counterexample :
    ¬ (sqlTexts (Repository.new userType ⟨some 1⟩ (usersWorld ⟨[], 0⟩)).2.log =
          ["CREATE TABLE IF NOT EXISTS users(id INTEGER PRIMARY KEY AUTOINCREMENT, name TEXT, age INT);"] ∧
        sqlTexts (Repository.save userType repo1 (User.new "Alice" 30) (usersWorld ⟨[], 0⟩)).2.log =
          ["INSERT INTO users(name, age) VALUES(?, ?);"] ∧
        sqlTexts (Repository.update repo1 ⟨1, "Bob", 31⟩ (usersWorld ⟨[], 0⟩)).2.log =
          ["UPDATE users SET name=?, age=? WHERE id=?;"] ∧
        (Repository.loadAll userType repo1 5 (usersWorld ⟨[], 0⟩)).map (fun r => sqlTexts r.2.log) =
          some ["SELECT * FROM users;"] ∧
        sqlTexts (Repository.findById userType repo1 1 (usersWorld ⟨[], 0⟩)).2.log =
          ["SELECT * FROM users WHERE id=?;"] ∧
        sqlTexts (Repository.deleteById userType repo1 1 (usersWorld ⟨[], 0⟩)).2.log =
          ["DELETE FROM users WHERE id=?;"]) := by
  decide

/-! ## C10 -/

theorem fromRow_reads_row (h : Nat) (w : World) (st : Stmt) (cur : Row) (rest : List Row)
    (hst : findStmt h w.stmts = some st) (hcur : st.cursor = .onRow cur rest) :
    User.fromRow (some h) w =
        (userOfRow cur,
          { w with log := w.log ++
              [.column_int (some h) 0, .column_text (some h) 1, .column_int (some h) 2] }) ∧
      Book.fromRow (some h) w =
        (bookOfRow cur,
          { w with log := w.log ++
              [.column_int (some h) 0, .column_text (some h) 1, .column_int (some h) 2] }) := by
  constructor
  · simp [User.fromRow, sqlite3_column_int, sqlite3_column_text, columnValue, World.logCall, hst,
      hcur, Row.col, userOfRow, Value.asInt]
  · simp [Book.fromRow, sqlite3_column_int, sqlite3_column_text, columnValue, World.logCall, hst,
      hcur, Row.col, bookOfRow, Value.asInt]

/-- C10: on a statement standing on a result row, `User::fromRow` and
`Book::fromRow` make exactly the three reads column 0 (integer), column 1
(text), column 2 (integer) and return the record built from them: column 0 as
id, the C string of column 1 as the text field, column 2 as the second integer
field; when column 1 is NULL the text field is the empty string and the integer
fields are still those of columns 0 and 2. -/
theorem C10_fromRow (h : Nat) (w : World) (st : Stmt) (cur : Row) (rest : List Row)
    (hst : findStmt h w.stmts = some st) (hcur : st.cursor = .onRow cur rest) :
    User.fromRow (some h) w =
        (⟨(Value.int cur.rowid).asInt,
            (match cur.c1.asText with | some t => cstr t | none => ""), cur.c2.asInt⟩,
          { w with log := w.log ++
              [.column_int (some h) 0, .column_text (some h) 1, .column_int (some h) 2] }) ∧
      Book.fromRow (some h) w =
        (⟨(Value.int cur.rowid).asInt,
            (match cur.c1.asText with | some t => cstr t | none => ""), cur.c2.asInt⟩,
          { w with log := w.log ++
              [.column_int (some h) 0, .column_text (some h) 1, .column_int (some h) 2] }) ∧
      (cur.c1 = .null →
        (User.fromRow (some h) w).1 = ⟨(Value.int cur.rowid).asInt, "", cur.c2.asInt⟩ ∧
        (Book.fromRow (some h) w).1 = ⟨(Value.int cur.rowid).asInt, "", cur.c2.asInt⟩) := by
  refine ⟨?_, ?_, ?_⟩
  · simp [User.fromRow, sqlite3_column_int, sqlite3_column_text, columnValue, World.logCall, hst,
      hcur, Row.col]
  · simp [Book.fromRow, sqlite3_column_int, sqlite3_column_text, columnValue, World.logCall, hst,
      hcur, Row.col]
  · intro hnull
    simp [User.fromRow, Book.fromRow, sqlite3_column_int, sqlite3_column_text, columnValue,
      World.logCall, hst, hcur, Row.col, hnull, Value.asText]

/-- C10 at a concrete row with a NULL text column. -/
theorem C10_fromRow_witness :
    (User.fromRow (some 7) nullRowWorld).1 = ⟨4, "", 30⟩ ∧
      (Book.fromRow (some 7) nullRowWorld).1 = ⟨4, "", 30⟩ :=
  (C10_fromRow 7 nullRowWorld ⟨7, 1, .selectAll .users, [], .onRow ⟨4, .null, .int 30⟩ []⟩
    ⟨4, .null, .int 30⟩ [] (by decide) rfl).2.2 rfl

/-! ## C7 -/

/-- C7: when the engine answers the open with a non-success code, the handle
wrapper holds the null connection; from then on, in every world, `execute`
returns false and leaves the world as it is (no engine call is logged), and the
destructor leaves the world as it is (no close is issued). -/
theorem C7_broken_handle (name : String) (w : World)
    (hopen : (sqlite3_open name w).1 ≠ SQLITE_OK) :
    (DB.new name w).1.db = none ∧
      ∀ (q : String) (w1 : World),
        (DB.new name w).1.execute q w1 = (false, w1) ∧
        ((DB.new name w).1.execute q w1).2.log = w1.log ∧
        (DB.new name w).1.destroy w1 = w1 := by
  have hdb : (DB.new name w).1.db = none := by
    unfold DB.new
    simp only []
    rw [if_pos (by simpa [SQLITE_OK] using hopen)]
  refine ⟨hdb, fun q w1 => ?_⟩
  simp [DB.execute, DB.destroy, hdb]

/-- C7 at a concrete input: the open fails with code 14. -/
theorem C7_broken_handle_witness :
    (sqlite3_open "test.db" cantOpenWorld).1 = 14 ∧
      (DB.new "test.db" cantOpenWorld).1.db = none ∧
      (DB.new "test.db" cantOpenWorld).1.execute "SELECT * FROM users;" aliceWorld =
        (false, aliceWorld) :=
  ⟨by decide, (C7_broken_handle "test.db" cantOpenWorld (by decide)).1,
    ((C7_broken_handle "test.db" cantOpenWorld (by decide)).2 "SELECT * FROM users;" aliceWorld).1⟩

/-! ## The outcome of preparing a statement -/

theorem errCode_ne (e : Err) :
    e.code ≠ SQLITE_OK ∧ e.code ≠ SQLITE_ROW ∧ e.code ≠ SQLITE_DONE := by
  cases e <;> decide

theorem prepare_cases (db : Option Nat) (q : String) (n : Int) (w : World) :
    ((sqlite3_prepare_v2 db q n w).1 ≠ SQLITE_OK ∧ (sqlite3_prepare_v2 db q n w).2.1 = none ∧
        (sqlite3_prepare_v2 db q n w).2.2.stmts = w.stmts ∧
        (sqlite3_prepare_v2 db q n w).2.2.data = w.data) ∨
      (∃ sql, parseSql (sqlText q n) = some sql ∧ sql.compiles w.data = true ∧ w.fault = none ∧
        connUsable db w.conns = true ∧
        sqlite3_prepare_v2 db q n w =
          (SQLITE_OK, some (freshStmt w.stmts),
            { (w.popFault.logCall (.prepare_v2 db (sqlText q n) (some (freshStmt w.stmts)))) with
              stmts := ⟨freshStmt w.stmts, db.getD 0, sql, List.replicate sql.nParams .null, .fresh⟩ ::
                w.stmts })) := by
  unfold sqlite3_prepare_v2
  simp only []
  by_cases hu : connUsable db w.conns = true
  · simp only [hu, if_true]
    cases hf : w.fault with
    | some e =>
      left
      simp [World.popFault, World.logCall, (errCode_ne e).1]
    | none =>
      cases hp : parseSql (sqlText q n) with
      | none => left; simp [World.popFault, World.logCall, Err.code, SQLITE_OK]
      | some sql =>
        by_cases hc : sql.compiles w.data = true
        · right
          refine ⟨sql, rfl, hc, rfl, trivial, ?_⟩
          simp [hc, World.popFault, World.logCall]
        · left
          simp [hc, World.popFault, World.logCall, Err.code, SQLITE_OK]
  · left
    simp [hu, World.logCall, SQLITE_MISUSE, SQLITE_OK]

theorem parse_selectByIdUser :
    parseSql "SELECT * FROM users WHERE id = ?;" = some (.selectById .users) := by decide

/-- In every world, whatever failures are scheduled: an id that no row of the
`users` table carries is answered with the default record. -/
theorem findById_absent_user (self : Repository User) (id : Int) (w : World)
    (habs : ∀ t, w.data.users = some t → ∀ r ∈ t.rows, r.rowid ≠ id) :
    (Repository.findById userType self id w).1 = User.default := by
  unfold Repository.findById
  simp only []
  rcases prepare_cases self.db.getDB
      ("SELECT * FROM " ++ userType.tableName ++ " WHERE " ++ userType.primaryKey ++ " = ?;") (-1) w
    with ⟨hne, -, -, -⟩ | ⟨sql, hp, hc, hf, hu, heq⟩
  · rw [if_neg hne]; rfl
  · rw [text_selectByIdUser, parse_selectByIdUser] at hp
    simp only [Option.some.injEq] at hp
    subst hp
    rw [heq]
    simp only [Sql.compiles, Sql.tbl, Data.table, Option.isSome_iff_exists] at hc
    obtain ⟨t, ht⟩ := hc
    have hfil : t.rows.filter (fun r => decide (id = r.rowid)) = [] := by
      simp only [List.filter_eq_nil_iff, decide_eq_true_eq]
      intro r hr h
      exact habs t ht r hr h.symm
    cases hf2 : w.faults.tail with
    | nil =>
      simp [sqlite3_bind_int, bindParam, findStmt, updateStmt, Sql.nParams, World.logCall,
        World.popFault, sqlite3_step, World.fault, nextFault, hf2, evalSql, Data.table, ht, param, matchesId,
        hfil, SQLITE_ROW, SQLITE_DONE, SQLITE_OK, sqlite3_finalize, userType]
    | cons f fs =>
      cases f with
      | none =>
        simp [sqlite3_bind_int, bindParam, findStmt, updateStmt, Sql.nParams, World.logCall,
          World.popFault, sqlite3_step, World.fault, nextFault, hf2, evalSql, Data.table, ht, param, matchesId,
          hfil, SQLITE_ROW, SQLITE_DONE, SQLITE_OK, sqlite3_finalize, userType]
      | some e =>
        have := (errCode_ne e).2.1
        simp [sqlite3_bind_int, bindParam, findStmt, updateStmt, Sql.nParams, World.logCall,
          World.popFault, sqlite3_step, World.fault, nextFault, hf2, SQLITE_ROW, SQLITE_OK,
          sqlite3_finalize, userType] at this ⊢
        simp [this]

/-! ## C4 -/

/-- C4: whenever the select-by-key statement fails to prepare, or its first
step does not answer ROW, `findById(id)` returns the default-constructed record
of the type, which is `User{0, "", 0}` and `Book{0, "", 0}`; and in every world
whose `users` table is empty `findById(999)` returns `{0, "", 0}`. -/
theorem C4_findById_default {T : Type} (R : RecordType T) (self : Repository T) (id : Int)
    (w : World)
    (hno :
      (sqlite3_prepare_v2 self.db.getDB
          ("SELECT * FROM " ++ R.tableName ++ " WHERE " ++ R.primaryKey ++ " = ?;") (-1) w).1 ≠
        SQLITE_OK ∨
      (sqlite3_step
          (sqlite3_prepare_v2 self.db.getDB
            ("SELECT * FROM " ++ R.tableName ++ " WHERE " ++ R.primaryKey ++ " = ?;") (-1) w).2.1
          (sqlite3_bind_int
            (sqlite3_prepare_v2 self.db.getDB
              ("SELECT * FROM " ++ R.tableName ++ " WHERE " ++ R.primaryKey ++ " = ?;") (-1) w).2.1
            1 id
            (sqlite3_prepare_v2 self.db.getDB
              ("SELECT * FROM " ++ R.tableName ++ " WHERE " ++ R.primaryKey ++ " = ?;") (-1)
              w).2.2).2).1 ≠
        SQLITE_ROW) :
    (Repository.findById R self id w).1 = R.default ∧
      userType.default = (⟨0, "", 0⟩ : User) ∧
      bookType.default = (⟨0, "", 0⟩ : Book) ∧
      ∀ (self1 : Repository User) (w1 : World) (seq : Int),
        w1.data.users = some ⟨[], seq⟩ →
          (Repository.findById userType self1 999 w1).1 = (⟨0, "", 0⟩ : User) := by
  refine ⟨?_, rfl, rfl, ?_⟩
  · unfold Repository.findById
    simp only []
    rcases hno with h | h
    · rw [if_neg h]
    · simp only [if_neg h]
      split <;> rfl
  · intro self1 w1 seq hw
    refine findById_absent_user self1 999 w1 ?_
    intro t ht r hr
    rw [hw] at ht
    simp only [Option.some.injEq] at ht
    subst ht
    simp at hr

/-- C4 at a concrete input: an empty `users` table on a usable connection; the
first step answers DONE. -/
theorem C4_findById_default_witness :
    (Repository.findById userType repo1 999 (usersWorld ⟨[], 0⟩)).1 = (⟨0, "", 0⟩ : User) :=
  (C4_findById_default userType repo1 999 (usersWorld ⟨[], 0⟩) (Or.inr (by decide))).1

/-! ## Running the operations in a healthy world -/

theorem userType_reads : userType.reads userOfRow := by
  intro h w st cur rest hst hcur
  exact ⟨_, (fromRow_reads_row h w st cur rest hst hcur).1⟩

theorem bookType_reads : bookType.reads bookOfRow := by
  intro h w st cur rest hst hcur
  exact ⟨_, (fromRow_reads_row h w st cur rest hst hcur).2⟩

theorem loadAllLoop_onRow {T : Type} (R : RecordType T) (proj : Row → T) (hR : R.reads proj)
    (h c : Nat) (sql : Sql) (ps : List Value) (tail : List Stmt) :
    ∀ (rest : List Row) (fuel : Nat) (items : List T) (w : World) (cur : Row),
      w.faults = [] → w.stmts = ⟨h, c, sql, ps, .onRow cur rest⟩ :: tail → rest.length < fuel →
      ∃ l, loadAllLoop R (some h) fuel items w =
        some (items ++ rest.map proj,
          { w with stmts := ⟨h, c, sql, ps, .done⟩ :: tail, log := w.log ++ l }) := by
  intro rest
  induction rest with
  | nil =>
    intro fuel items w cur hf hs hfuel
    obtain ⟨n, rfl⟩ : ∃ n, fuel = n + 1 := ⟨fuel - 1, by simp at hfuel; omega⟩
    refine ⟨[Call.step (some h)], ?_⟩
    simp [loadAllLoop, sqlite3_step, World.logCall, hs, findStmt, World.fault, nextFault, hf, World.popFault,
      updateStmt, SQLITE_DONE, SQLITE_ROW]
  | cons r rs ih =>
    intro fuel items w cur hf hs hfuel
    obtain ⟨n, rfl⟩ : ∃ n, fuel = n + 1 := ⟨fuel - 1, by simp at hfuel; omega⟩
    have hn : rs.length < n := by simpa using hfuel
    have hstep : sqlite3_step (some h) w =
        (SQLITE_ROW, { w with stmts := ⟨h, c, sql, ps, .onRow r rs⟩ :: tail,
                              log := w.log ++ [Call.step (some h)] }) := by
      simp [sqlite3_step, World.logCall, hs, findStmt, World.fault, nextFault, hf, World.popFault, updateStmt]
    obtain ⟨l1, hl1⟩ := hR h
      { w with stmts := ⟨h, c, sql, ps, .onRow r rs⟩ :: tail, log := w.log ++ [Call.step (some h)] }
      ⟨h, c, sql, ps, .onRow r rs⟩ r rs (by simp [findStmt]) rfl
    obtain ⟨l2, hl2⟩ := ih n (items ++ [proj r])
      { w with stmts := ⟨h, c, sql, ps, .onRow r rs⟩ :: tail, log := w.log ++ [Call.step (some h)] ++ l1 }
      r hf rfl hn
    refine ⟨[Call.step (some h)] ++ l1 ++ l2, ?_⟩
    simp only [loadAllLoop, hstep, if_true, hl1]
    simp only [List.append_assoc] at hl2 ⊢
    rw [hl2]
    simp

theorem prepare_healthy (c : Nat) (q : String) (n : Int) (w : World) (sql : Sql)
    (hu : connUsable (some c) w.conns = true) (hf : w.faults = [])
    (hp : parseSql (sqlText q n) = some sql) (hc : sql.compiles w.data = true) :
    sqlite3_prepare_v2 (some c) q n w =
      (SQLITE_OK, some (freshStmt w.stmts),
        { w with
          log := w.log ++ [Call.prepare_v2 (some c) (sqlText q n) (some (freshStmt w.stmts))],
          stmts := ⟨freshStmt w.stmts, c, sql, List.replicate sql.nParams .null, .fresh⟩ :: w.stmts }) := by
  simp [sqlite3_prepare_v2, hu, World.fault, nextFault, hf, hp, hc, World.popFault, World.logCall]

theorem loadAll_healthy {T : Type} (R : RecordType T) (proj : Row → T) (hR : R.reads proj)
    (tb : Tbl)
    (hq : parseSql (sqlText ("SELECT * FROM " ++ R.tableName ++ ";") (-1)) = some (.selectAll tb))
    (self : Repository T) (c : Nat) (hs : self.db.db = some c) (w : World) (t : Table)
    (hu : connUsable (some c) w.conns = true) (hf : w.faults = [])
    (ht : w.data.table tb = some t) (fuel : Nat) (hfuel : t.rows.length < fuel) :
    ∃ l, Repository.loadAll R self fuel w = some (t.rows.map proj, { w with log := w.log ++ l }) := by
  obtain ⟨n, rfl⟩ : ∃ n, fuel = n + 1 := ⟨fuel - 1, by omega⟩
  have hprep := prepare_healthy c ("SELECT * FROM " ++ R.tableName ++ ";") (-1) w _ hu hf hq
    (by simp [Sql.compiles, Sql.tbl, ht])
  unfold Repository.loadAll
  simp only [DB.getDB, hs, hprep, if_true]
  cases hrows : t.rows with
  | nil =>
    refine ⟨[Call.prepare_v2 (some c) (sqlText ("SELECT * FROM " ++ R.tableName ++ ";") (-1))
      (some (freshStmt w.stmts)), Call.step (some (freshStmt w.stmts)),
      Call.finalize (some (freshStmt w.stmts))], ?_⟩
    simp [loadAllLoop, sqlite3_step, World.logCall, findStmt, World.fault, nextFault, hf, World.popFault,
      updateStmt, evalSql, ht, hrows, SQLITE_DONE, SQLITE_ROW, sqlite3_finalize, removeStmt]
  | cons r rs =>
    have hn : rs.length < n := by simpa [hrows] using hfuel
    have hstep : sqlite3_step (some (freshStmt w.stmts))
        { w with
          log := w.log ++ [Call.prepare_v2 (some c)
            (sqlText ("SELECT * FROM " ++ R.tableName ++ ";") (-1)) (some (freshStmt w.stmts))],
          stmts := ⟨freshStmt w.stmts, c, .selectAll tb,
            List.replicate (Sql.selectAll tb).nParams .null, .fresh⟩ :: w.stmts } =
        (SQLITE_ROW,
          { w with
            log := w.log ++ [Call.prepare_v2 (some c)
              (sqlText ("SELECT * FROM " ++ R.tableName ++ ";") (-1)) (some (freshStmt w.stmts)),
              Call.step (some (freshStmt w.stmts))],
            stmts := ⟨freshStmt w.stmts, c, .selectAll tb,
              List.replicate (Sql.selectAll tb).nParams .null, .onRow r rs⟩ :: w.stmts }) := by
      simp [sqlite3_step, World.logCall, findStmt, World.fault, nextFault, hf, World.popFault,
        updateStmt, evalSql, ht, hrows]
    obtain ⟨l1, hl1⟩ := hR (freshStmt w.stmts) _ _ r rs
      (show findStmt (freshStmt w.stmts)
        ({ w with
            log := w.log ++ [Call.prepare_v2 (some c)
              (sqlText ("SELECT * FROM " ++ R.tableName ++ ";") (-1)) (some (freshStmt w.stmts)),
              Call.step (some (freshStmt w.stmts))],
            stmts := ⟨freshStmt w.stmts, c, .selectAll tb,
              List.replicate (Sql.selectAll tb).nParams .null, .onRow r rs⟩ :: w.stmts } : World).stmts
          = some ⟨freshStmt w.stmts, c, .selectAll tb,
              List.replicate (Sql.selectAll tb).nParams .null, .onRow r rs⟩ by simp [findStmt]) rfl
    obtain ⟨l2, hl2⟩ := loadAllLoop_onRow R proj hR (freshStmt w.stmts) c (.selectAll tb)
      (List.replicate (Sql.selectAll tb).nParams .null) w.stmts rs n [proj r] _ r
      (show ({ w with
          log := (w.log ++ [Call.prepare_v2 (some c)
            (sqlText ("SELECT * FROM " ++ R.tableName ++ ";") (-1)) (some (freshStmt w.stmts)),
            Call.step (some (freshStmt w.stmts))]) ++ l1,
          stmts := ⟨freshStmt w.stmts, c, .selectAll tb,
            List.replicate (Sql.selectAll tb).nParams .null, .onRow r rs⟩ :: w.stmts } : World).faults = []
        from hf) rfl hn
    refine ⟨[Call.prepare_v2 (some c) (sqlText ("SELECT * FROM " ++ R.tableName ++ ";") (-1))
      (some (freshStmt w.stmts)), Call.step (some (freshStmt w.stmts))] ++ l1 ++ l2 ++
      [Call.finalize (some (freshStmt w.stmts))], ?_⟩
    simp only [loadAllLoop, hstep, if_true, hl1, List.nil_append]
    simp only [hl2]
    simp [sqlite3_finalize, World.logCall, removeStmt]

theorem parse_insertUser :
    parseSql "INSERT INTO users(name, age) VALUES(?, ?);" = some (.insert .users) := by decide

theorem parse_updateUser :
    parseSql "UPDATE users SET name = ?, age = ? WHERE id = ?;" = some (.update .users) := by decide

theorem parse_deleteUser :
    parseSql "DELETE FROM users WHERE id = ?;" = some (.deleteById .users) := by decide

theorem parse_selectAllUser :
    parseSql "SELECT * FROM users;" = some (.selectAll .users) := by decide

theorem parse_createUser :
    parseSql "CREATE TABLE IF NOT EXISTS users (id INTEGER PRIMARY KEY AUTOINCREMENT, name TEXT, age INT);" =
      some (.createTable .users) := by decide

theorem save_healthy (self : Repository User) (c : Nat) (hs : self.db.db = some c) (u : User)
    (w : World) (t : Table) (hu : connUsable (some c) w.conns = true) (hf : w.faults = [])
    (ht : w.data.users = some t) (hid : t.nextRowid ≤ INT64_MAX) :
    Repository.save userType self u w =
      (true,
        { w with
          data := w.data.setTable .users
            ⟨t.rows ++ [⟨t.nextRowid, .text (cstr u.name), .int u.age⟩], t.nextRowid⟩,
          log := w.log ++
            [.prepare_v2 (some c) "INSERT INTO users(name, age) VALUES(?, ?);" (some (freshStmt w.stmts)),
             .bind_text (some (freshStmt w.stmts)) 1 u.name,
             .bind_int (some (freshStmt w.stmts)) 2 u.age,
             .step (some (freshStmt w.stmts)),
             .finalize (some (freshStmt w.stmts))] }) := by
  have hprep := prepare_healthy c (userType.insertSQL u) (-1) w (.insert .users) hu hf
    (by rw [text_insertUser, parse_insertUser]) (by simp [Sql.compiles, Sql.tbl, Data.table, ht])
  have hid2 : ¬ INT64_MAX < t.nextRowid := not_lt.mpr hid
  unfold Repository.save
  simp only [DB.getDB, hs, hprep, text_insertUser]
  simp [userType, bindAndExecuteInsertUser, sqlite3_bind_text, sqlite3_bind_int, bindParam,
    findStmt, updateStmt, Sql.nParams, World.logCall, sqlite3_step, World.fault, nextFault, hf, World.popFault,
    evalSql, Data.table, ht, param, hid2, SQLITE_OK, SQLITE_DONE, sqlite3_finalize, removeStmt]

theorem update_healthy (self : Repository User) (c : Nat) (hs : self.db.db = some c) (u : User)
    (w : World) (t : Table) (hu : connUsable (some c) w.conns = true) (hf : w.faults = [])
    (ht : w.data.users = some t) :
    Repository.update self u w =
      (true,
        { w with
          data := w.data.setTable .users
            ⟨t.rows.map (fun r =>
                if decide (u.id = r.rowid) then ⟨r.rowid, .text (cstr u.name), .int u.age⟩ else r),
              t.seq⟩,
          log := w.log ++
            [.prepare_v2 (some c) "UPDATE users SET name = ?, age = ? WHERE id = ?;"
               (some (freshStmt w.stmts)),
             .bind_text (some (freshStmt w.stmts)) 1 u.name,
             .bind_int (some (freshStmt w.stmts)) 2 u.age,
             .bind_int (some (freshStmt w.stmts)) 3 u.id,
             .step (some (freshStmt w.stmts)),
             .finalize (some (freshStmt w.stmts))] }) := by
  have hprep := prepare_healthy c u.updateSQL (-1) w (.update .users) hu hf
    (by rw [text_updateUser, parse_updateUser]) (by simp [Sql.compiles, Sql.tbl, Data.table, ht])
  unfold Repository.update
  simp only [DB.getDB, hs, hprep, text_updateUser]
  simp [bindAndExecuteUpdate, sqlite3_bind_text, sqlite3_bind_int, bindParam,
    findStmt, updateStmt, Sql.nParams, World.logCall, sqlite3_step, World.fault, nextFault, hf, World.popFault,
    evalSql, Data.table, ht, param, matchesId, SQLITE_OK, SQLITE_DONE, sqlite3_finalize, removeStmt]

theorem deleteById_healthy (self : Repository User) (c : Nat) (hs : self.db.db = some c) (id : Int)
    (w : World) (t : Table) (hu : connUsable (some c) w.conns = true) (hf : w.faults = [])
    (ht : w.data.users = some t) :
    Repository.deleteById userType self id w =
      (true,
        { w with
          data := w.data.setTable .users
            ⟨t.rows.filter (fun r => !decide (id = r.rowid)), t.seq⟩,
          log := w.log ++
            [.prepare_v2 (some c) "DELETE FROM users WHERE id = ?;" (some (freshStmt w.stmts)),
             .bind_int (some (freshStmt w.stmts)) 1 id,
             .step (some (freshStmt w.stmts)),
             .finalize (some (freshStmt w.stmts))] }) := by
  have hprep := prepare_healthy c
    ("DELETE FROM " ++ userType.tableName ++ " WHERE " ++ userType.primaryKey ++ " = ?;") (-1) w
    (.deleteById .users) hu hf
    (by rw [text_deleteUser, parse_deleteUser]) (by simp [Sql.compiles, Sql.tbl, Data.table, ht])
  unfold Repository.deleteById
  simp only [DB.getDB, hs, hprep, text_deleteUser]
  simp [sqlite3_bind_int, bindParam,
    findStmt, updateStmt, Sql.nParams, World.logCall, sqlite3_step, World.fault, nextFault, hf, World.popFault,
    evalSql, Data.table, ht, param, matchesId, SQLITE_OK, SQLITE_DONE, sqlite3_finalize, removeStmt]

theorem findById_healthy (self : Repository User) (c : Nat) (hs : self.db.db = some c) (id : Int)
    (w : World) (t : Table) (hu : connUsable (some c) w.conns = true) (hf : w.faults = [])
    (ht : w.data.users = some t) :
    (Repository.findById userType self id w).1 =
      (((t.rows.filter (fun r => decide (id = r.rowid))).head?).map userOfRow).getD User.default := by
  have hprep := prepare_healthy c
    ("SELECT * FROM " ++ userType.tableName ++ " WHERE " ++ userType.primaryKey ++ " = ?;") (-1) w
    (.selectById .users) hu hf
    (by rw [text_selectByIdUser, parse_selectByIdUser])
    (by simp [Sql.compiles, Sql.tbl, Data.table, ht])
  unfold Repository.findById
  simp only [DB.getDB, hs, hprep, text_selectByIdUser]
  cases hfil : t.rows.filter (fun r => decide (id = r.rowid)) with
  | nil =>
    simp [sqlite3_bind_int, bindParam,
      findStmt, updateStmt, Sql.nParams, World.logCall, sqlite3_step, World.fault, nextFault, hf, World.popFault,
      evalSql, Data.table, ht, param, matchesId, hfil, SQLITE_OK, SQLITE_DONE, SQLITE_ROW,
      sqlite3_finalize, removeStmt, userType]
  | cons r rs =>
    simp [sqlite3_bind_int, bindParam,
      findStmt, updateStmt, Sql.nParams, World.logCall, sqlite3_step, World.fault, nextFault, hf, World.popFault,
      evalSql, Data.table, ht, param, matchesId, hfil, SQLITE_OK, SQLITE_DONE, SQLITE_ROW,
      sqlite3_finalize, removeStmt, userType, User.fromRow, sqlite3_column_int, sqlite3_column_text,
      columnValue, Row.col, userOfRow, Value.asInt]

/-! ## Arithmetic of ids -/

theorem toInt32_of_isInt (x : Int) (h : isInt x) : toInt32 x = x := by
  obtain ⟨h1, h2⟩ := h
  simp only [INT_MIN, INT_MAX] at h1 h2
  unfold toInt32
  rw [Int.emod_eq_of_lt (by omega) (by omega)]
  omega

theorem toInt32_isInt (x : Int) : isInt (toInt32 x) := by
  unfold toInt32 isInt INT_MIN INT_MAX
  constructor <;> omega

theorem maxRowid_nonneg (rows : List Row) : 0 ≤ maxRowid rows := by
  induction rows with
  | nil => simp [maxRowid]
  | cons r rs ih => simp only [maxRowid]; exact le_trans ih (le_max_right _ _)

theorem nextRowid_pos (t : Table) : 0 < t.nextRowid := by
  unfold Table.nextRowid
  have := maxRowid_nonneg t.rows
  have := le_max_right t.seq (maxRowid t.rows)
  omega

theorem setTable_users_data (d : Data) (tb : Table) :
    (d.setTable .users tb).users = some tb := rfl

theorem updated_row_found (k : Int) (a b : Value) :
    ∀ rows : List Row, (∃ row ∈ rows, row.rowid = k) →
      ((rows.map (fun r => if decide (k = r.rowid) then (⟨r.rowid, a, b⟩ : Row) else r)).filter
        (fun r => decide (k = r.rowid))).head? = some ⟨k, a, b⟩ := by
  intro rows
  induction rows with
  | nil => rintro ⟨row, hrow, -⟩; simp at hrow
  | cons r rs ih =>
    intro hex
    by_cases hk : k = r.rowid
    · simp [hk]
    · have hex2 : ∃ row ∈ rs, row.rowid = k := by
        obtain ⟨row, hrow, hrk⟩ := hex
        rcases List.mem_cons.mp hrow with h | h
        · exact absurd (h ▸ hrk).symm hk
        · exact ⟨row, h, hrk⟩
      simpa [hk] using ih hex2

/-! ## C1 -/

/-- C1 (as the code has it): in a healthy world with a `users` table whose next
row id fits a C `int`, for every name without NUL character and every `int`
age: `loadAll()` returns the records of the stored rows, `save(User(name,
age))` then returns true, and a following `loadAll()` returns the same records
followed by exactly one more, which has the given name and age and the
engine-assigned id, an id greater than 0. -/
theorem C1_save_then_loadAll (self : Repository User) (c : Nat) (hs : self.db.db = some c)
    (name : String) (age : Int) (w : World) (t : Table) (fuel : Nat)
    (hu : connUsable (some c) w.conns = true) (hf : w.faults = [])
    (ht : w.data.users = some t) (hname : cstr name = name) (hage : isInt age)
    (hid : t.nextRowid ≤ INT_MAX) (hfuel : t.rows.length + 1 < fuel) :
    ∃ w1 w2 w3,
      Repository.loadAll userType self fuel w = some (t.rows.map userOfRow, w1) ∧
      Repository.save userType self (User.new name age) w1 = (true, w2) ∧
      Repository.loadAll userType self fuel w2 =
        some (t.rows.map userOfRow ++ [⟨t.nextRowid, name, age⟩], w3) ∧
      0 < t.nextRowid := by
  obtain ⟨l1, h1⟩ := loadAll_healthy userType userOfRow userType_reads .users
    (by rw [text_selectAllUser, parse_selectAllUser]) self c hs w t hu hf ht fuel (by omega)
  have hid64 : t.nextRowid ≤ INT64_MAX := le_trans hid (by decide)
  obtain ⟨w2, h2, hu2, hf2, ht2⟩ : ∃ w2,
      Repository.save userType self (User.new name age) { w with log := w.log ++ l1 } = (true, w2) ∧
      connUsable (some c) w2.conns = true ∧ w2.faults = [] ∧
      w2.data.users = some ⟨t.rows ++ [⟨t.nextRowid, .text (cstr name), .int age⟩], t.nextRowid⟩ :=
    ⟨_, save_healthy self c hs (User.new name age) { w with log := w.log ++ l1 } t hu hf ht hid64,
      hu, hf, by simp [Data.setTable, User.new]⟩
  obtain ⟨l3, h3⟩ := loadAll_healthy userType userOfRow userType_reads .users
    (by rw [text_selectAllUser, parse_selectAllUser]) self c hs w2 _ hu2 hf2 ht2 fuel
    (by simp; omega)
  refine ⟨_, w2, { w2 with log := w2.log ++ l3 }, h1, h2, ?_, nextRowid_pos t⟩
  rw [h3]
  have hidint : isInt t.nextRowid := ⟨le_trans (by decide) (le_of_lt (nextRowid_pos t)), hid⟩
  simp [userOfRow, Value.asText, Value.asInt, hname, toInt32_of_isInt _ hage,
    toInt32_of_isInt _ hidint]

/-- C1 at a concrete input: an empty table, Alice aged 30 gets id 1. -/
theorem C1_save_then_loadAll_witness :
    ∃ w1 w2 w3,
      Repository.loadAll userType repo1 5 (usersWorld ⟨[], 0⟩) = some ([], w1) ∧
      Repository.save userType repo1 (User.new "Alice" 30) w1 = (true, w2) ∧
      Repository.loadAll userType repo1 5 w2 = some ([] ++ [⟨1, "Alice", 30⟩], w3) ∧
      (0 : Int) < 1 :=
  C1_save_then_loadAll repo1 1 rfl "Alice" 30 (usersWorld ⟨[], 0⟩) ⟨[], 0⟩ 5 (by decide) rfl rfl
    (by decide) (by decide) (by decide) (by decide)

/-- C1 as stated fails for a table state whose next id is 2147483648: the save
succeeds and the record read back for it has the id -2147483648, which is not
greater than 0. -/
theorem C1_counterexample :
    (Repository.save userType repo1 (User.new "Alice" 30) bigIdWorld).1 = true ∧
      (Repository.loadAll userType repo1 5
          (Repository.save userType repo1 (User.new "Alice" 30) bigIdWorld).2).map Prod.fst =
        some [⟨2147483647, "Zed", 1⟩, ⟨-2147483648, "Alice", 30⟩] ∧
      ¬ ((0 : Int) < (⟨-2147483648, "Alice", 30⟩ : User).id) := by
  decide

/-! ## C2 -/

/-- C2 (as the code has it): in a healthy world, for every User `r` stored in
the `users` table (a row carries the id `r.id` and reads back as `r`) and every
User `r1` with `r1.id = r.id`, a name without NUL character and an `int` age:
`update(r1)` returns true, binds the name at position 1, the age at position 2 and the id
at position 3 of `UPDATE users SET name = ?, age = ? WHERE id = ?;`, and a
following `findById(r.id)` returns `r1`. -/
theorem C2_update_then_findById (self : Repository User) (c : Nat) (hs : self.db.db = some c)
    (r r1 : User) (w : World) (t : Table)
    (hu : connUsable (some c) w.conns = true) (hf : w.faults = [])
    (ht : w.data.users = some t)
    (hstored : ∃ row ∈ t.rows, row.rowid = r.id ∧ userOfRow row = r)
    (hid : r1.id = r.id) (hname : cstr r1.name = r1.name) (hage : isInt r1.age) :
    ∃ w1,
      Repository.update self r1 w = (true, w1) ∧
      w1.log = w.log ++
        [.prepare_v2 (some c) "UPDATE users SET name = ?, age = ? WHERE id = ?;"
            (some (freshStmt w.stmts)),
          .bind_text (some (freshStmt w.stmts)) 1 r1.name,
          .bind_int (some (freshStmt w.stmts)) 2 r1.age,
          .bind_int (some (freshStmt w.stmts)) 3 r1.id,
          .step (some (freshStmt w.stmts)),
          .finalize (some (freshStmt w.stmts))] ∧
      (Repository.findById userType self r.id w1).1 = r1 := by
  obtain ⟨row, hrow, hrid, hread⟩ := hstored
  have hidint : isInt r1.id := by
    rw [hid, ← hread]
    exact toInt32_isInt _
  obtain ⟨w1, h1, hlog, hu1, hf1, ht1⟩ : ∃ w1,
      Repository.update self r1 w = (true, w1) ∧
      w1.log = w.log ++
        [.prepare_v2 (some c) "UPDATE users SET name = ?, age = ? WHERE id = ?;"
            (some (freshStmt w.stmts)),
          .bind_text (some (freshStmt w.stmts)) 1 r1.name,
          .bind_int (some (freshStmt w.stmts)) 2 r1.age,
          .bind_int (some (freshStmt w.stmts)) 3 r1.id,
          .step (some (freshStmt w.stmts)),
          .finalize (some (freshStmt w.stmts))] ∧
      connUsable (some c) w1.conns = true ∧ w1.faults = [] ∧
      w1.data.users = some
        ⟨t.rows.map (fun x =>
            if decide (r1.id = x.rowid) then ⟨x.rowid, .text (cstr r1.name), .int r1.age⟩ else x),
          t.seq⟩ :=
    ⟨_, update_healthy self c hs r1 w t hu hf ht, rfl, hu, hf, by simp [Data.setTable]⟩
  refine ⟨w1, h1, hlog, ?_⟩
  rw [findById_healthy self c hs r.id w1 _ hu1 hf1 ht1]
  have hfound := updated_row_found r1.id (.text (cstr r1.name)) (.int r1.age) t.rows
    ⟨row, hrow, by rw [hrid, hid]⟩
  simp only [← hid, hfound]
  simp [userOfRow, Value.asText, Value.asInt, hname, toInt32_of_isInt _ hage,
    toInt32_of_isInt _ hidint]

/-- C2 at a concrete input: Alice (id 1) is replaced by Bob aged 31. -/
theorem C2_update_then_findById_witness :
    ∃ w1,
      Repository.update repo1 ⟨1, "Bob", 31⟩ aliceWorld = (true, w1) ∧
      w1.log = aliceWorld.log ++
        [.prepare_v2 (some 1) "UPDATE users SET name = ?, age = ? WHERE id = ?;"
            (some (freshStmt aliceWorld.stmts)),
          .bind_text (some (freshStmt aliceWorld.stmts)) 1 "Bob",
          .bind_int (some (freshStmt aliceWorld.stmts)) 2 31,
          .bind_int (some (freshStmt aliceWorld.stmts)) 3 1,
          .step (some (freshStmt aliceWorld.stmts)),
          .finalize (some (freshStmt aliceWorld.stmts))] ∧
      (Repository.findById userType repo1 1 w1).1 = ⟨1, "Bob", 31⟩ :=
  C2_update_then_findById repo1 1 rfl ⟨1, "Alice", 30⟩ ⟨1, "Bob", 31⟩ aliceWorld
    ⟨[⟨1, .text "Alice", .int 30⟩], 1⟩ (by decide) rfl rfl
    ⟨⟨1, .text "Alice", .int 30⟩, by decide, rfl, by decide⟩ rfl (by decide) (by decide)

/-- C2 as stated fails for a record whose name holds a NUL character: the
binder hands the name over as a C string, so the update stores `B` for the
name `B\x00b` and the following `findById` returns a record with another name
than the one updated with. -/
theorem C2_counterexample :
    (Repository.update repo1 ⟨1, "B\x00b", 31⟩ aliceWorld).1 = true ∧
      (Repository.findById userType repo1 1
          (Repository.update repo1 ⟨1, "B\x00b", 31⟩ aliceWorld).2).1 = ⟨1, "B", 31⟩ ∧
      (⟨1, "B", 31⟩ : User) ≠ ⟨1, "B\x00b", 31⟩ := by
  decide

/-! ## C3 -/

/-- C3 (as the code has it): in a healthy world with a `users` table, for every
id: `deleteById(id)` returns true; afterwards `findById(id)` returns the
default-constructed record and `loadAll()` returns, unchanged and in order, the
records of exactly the rows whose id differs from `id`; when every stored row
id fits a C `int`, no record returned by `loadAll()` has that id. -/
theorem C3_delete_then_find (self : Repository User) (c : Nat) (hs : self.db.db = some c)
    (id : Int) (w : World) (t : Table) (fuel : Nat)
    (hu : connUsable (some c) w.conns = true) (hf : w.faults = [])
    (ht : w.data.users = some t) (hfuel : t.rows.length < fuel) :
    ∃ w1 w2,
      Repository.deleteById userType self id w = (true, w1) ∧
      (Repository.findById userType self id w1).1 = User.default ∧
      Repository.loadAll userType self fuel w1 =
        some ((t.rows.filter (fun r => decide (r.rowid ≠ id))).map userOfRow, w2) ∧
      ((∀ r ∈ t.rows, isInt r.rowid) →
        ∀ u ∈ (t.rows.filter (fun r => decide (r.rowid ≠ id))).map userOfRow, u.id ≠ id) := by
  have hfilter : t.rows.filter (fun r => !decide (id = r.rowid)) =
      t.rows.filter (fun r => decide (r.rowid ≠ id)) := by
    congr 1
    funext r
    by_cases h : id = r.rowid
    · simp [h]
    · simp [h, Ne.symm h]
  obtain ⟨w1, h1, hu1, hf1, ht1⟩ : ∃ w1,
      Repository.deleteById userType self id w = (true, w1) ∧
      connUsable (some c) w1.conns = true ∧ w1.faults = [] ∧
      w1.data.users = some ⟨t.rows.filter (fun r => decide (r.rowid ≠ id)), t.seq⟩ :=
    ⟨_, deleteById_healthy self c hs id w t hu hf ht, hu, hf, by simp [Data.setTable, hfilter]⟩
  obtain ⟨l, h2⟩ := loadAll_healthy userType userOfRow userType_reads .users
    (by rw [text_selectAllUser, parse_selectAllUser]) self c hs w1 _ hu1 hf1 ht1 fuel
    (lt_of_le_of_lt (List.length_filter_le _ _) hfuel)
  refine ⟨w1, { w1 with log := w1.log ++ l }, h1, ?_, h2, ?_⟩
  · refine findById_absent_user self id w1 ?_
    intro t1 ht1' r hr
    rw [ht1] at ht1'
    simp only [Option.some.injEq] at ht1'
    subst ht1'
    simpa using (List.mem_filter.mp hr).2
  · intro hall u hu
    obtain ⟨r, hr, rfl⟩ := List.mem_map.mp hu
    obtain ⟨hmem, hne⟩ := List.mem_filter.mp hr
    simp only [userOfRow, toInt32_of_isInt _ (hall r hmem)]
    simpa using hne

/-- C3 at a concrete input: deleting Alice (id 1) leaves an empty table. -/
theorem C3_delete_then_find_witness :
    ∃ w1 w2,
      Repository.deleteById userType repo1 1 aliceWorld = (true, w1) ∧
      (Repository.findById userType repo1 1 w1).1 = User.default ∧
      Repository.loadAll userType repo1 5 w1 =
        some ((([⟨1, .text "Alice", .int 30⟩] : List Row).filter
          (fun r => decide (r.rowid ≠ 1))).map userOfRow, w2) ∧
      ((∀ r ∈ ([⟨1, .text "Alice", .int 30⟩] : List Row), isInt r.rowid) →
        ∀ u ∈ (([⟨1, .text "Alice", .int 30⟩] : List Row).filter
          (fun r => decide (r.rowid ≠ 1))).map userOfRow, u.id ≠ 1) :=
  C3_delete_then_find repo1 1 rfl 1 aliceWorld ⟨[⟨1, .text "Alice", .int 30⟩], 1⟩ 5
    (by decide) rfl rfl (by decide)

/-- C3 as stated fails for a table state holding the row id 4294967297: after
`deleteById(1)` succeeded, `loadAll()` still returns a record with id 1, read
from that row. -/
theorem C3_counterexample :
    (Repository.deleteById userType repo1 1 wideIdWorld).1 = true ∧
      (Repository.loadAll userType repo1 5
          (Repository.deleteById userType repo1 1 wideIdWorld).2).map Prod.fst =
        some [⟨1, "Bo", 40⟩] ∧
      ¬ ∀ u ∈ [(⟨1, "Bo", 40⟩ : User)], u.id ≠ 1 := by
  decide

/-! ## C5 -/

/-- C5: `update(record)` returns true exactly when the update statement
prepares with the OK code and the one step made after the three binds answers
DONE; in a healthy world with a `users` table in which no row carries the
record's id, `update` returns true and leaves the stored data as it was. -/
theorem C5_update_flag (self : Repository User) (u : User) (w : World) :
    ((Repository.update self u w).1 = true ↔
        (sqlite3_prepare_v2 self.db.getDB u.updateSQL (-1) w).1 = SQLITE_OK ∧
        (sqlite3_step (sqlite3_prepare_v2 self.db.getDB u.updateSQL (-1) w).2.1
          (sqlite3_bind_int (sqlite3_prepare_v2 self.db.getDB u.updateSQL (-1) w).2.1 3 u.id
            (sqlite3_bind_int (sqlite3_prepare_v2 self.db.getDB u.updateSQL (-1) w).2.1 2 u.age
              (sqlite3_bind_text (sqlite3_prepare_v2 self.db.getDB u.updateSQL (-1) w).2.1 1
                u.name (-1)
                (sqlite3_prepare_v2 self.db.getDB u.updateSQL (-1) w).2.2).2).2).2).1 =
          SQLITE_DONE) ∧
      ∀ (c : Nat) (t : Table), self.db.db = some c → connUsable (some c) w.conns = true →
        w.faults = [] → w.data.users = some t → (∀ r ∈ t.rows, r.rowid ≠ u.id) →
          (Repository.update self u w).1 = true ∧ (Repository.update self u w).2.data = w.data := by
  constructor
  · unfold Repository.update
    simp only []
    by_cases hrc : (sqlite3_prepare_v2 self.db.getDB u.updateSQL (-1) w).1 = SQLITE_OK
    · simp [hrc, bindAndExecuteUpdate]
    · simp [hrc]
  · intro c t hs hu hf ht hno
    rw [update_healthy self c hs u w t hu hf ht]
    refine ⟨rfl, ?_⟩
    have hmap : t.rows.map (fun r =>
        if decide (u.id = r.rowid) then (⟨r.rowid, .text (cstr u.name), .int u.age⟩ : Row) else r) =
        t.rows := by
      conv_rhs => rw [← List.map_id t.rows]
      apply List.map_congr_left
      intro r hr
      simp [Ne.symm (hno r hr)]
    simp only [hmap]
    cases hd : w.data with
    | mk users books =>
      rw [hd] at ht
      simp only at ht
      subst ht
      rfl

/-- C5 at a concrete input: an update for id 9 on a table holding only id 1
reports success and changes nothing. -/
theorem C5_update_flag_witness :
    (Repository.update repo1 ⟨9, "Bob", 31⟩ aliceWorld).1 = true ∧
      (Repository.update repo1 ⟨9, "Bob", 31⟩ aliceWorld).2.data = aliceWorld.data :=
  (C5_update_flag repo1 ⟨9, "Bob", 31⟩ aliceWorld).2 1 ⟨[⟨1, .text "Alice", .int 30⟩], 1⟩ rfl
    (by decide) rfl rfl (by decide)

/-! ## C8 -/

theorem parse_createBook : parseSql (cstr bookType.createTableSQL) = some (.createTable .books) := by
  decide

theorem parse_selectAllBook :
    parseSql (sqlText ("SELECT * FROM " ++ bookType.tableName ++ ";") (-1)) =
      some (.selectAll .books) := by
  decide

theorem new_healthy {T : Type} (R : RecordType T) (tb : Tbl)
    (hq : parseSql (cstr R.createTableSQL) = some (.createTable tb))
    (db : DB) (c : Nat) (hdb : db.db = some c) (w : World)
    (hu : connUsable (some c) w.conns = true) (hf : w.faults = []) :
    db.execute R.createTableSQL w =
        (true,
          { w with
            log := w.log ++ [.exec (some c) (cstr R.createTableSQL)],
            data := match w.data.table tb with
              | some _ => w.data
              | none => w.data.setTable tb ⟨[], 0⟩ }) ∧
      Repository.new R db w =
        (⟨db⟩,
          { w with
            log := w.log ++ [.exec (some c) (cstr R.createTableSQL)],
            data := match w.data.table tb with
              | some _ => w.data
              | none => w.data.setTable tb ⟨[], 0⟩ }) := by
  have hexec : db.execute R.createTableSQL w =
        (true,
          { w with
            log := w.log ++ [.exec (some c) (cstr R.createTableSQL)],
            data := match w.data.table tb with
              | some _ => w.data
              | none => w.data.setTable tb ⟨[], 0⟩ }) := by
    unfold DB.execute sqlite3_exec
    cases htab : w.data.table tb <;>
      simp [hdb, hu, hf, hq, World.logCall, World.fault, nextFault, World.popFault, Sql.compiles, evalSql,
        htab, SQLITE_OK]
  refine ⟨hexec, ?_⟩
  unfold Repository.new
  rw [hexec]

theorem table_after_create (d : Data) (tb : Tbl) :
    ∃ t, (match d.table tb with
          | some _ => d
          | none => d.setTable tb ⟨[], 0⟩).table tb = some t := by
  cases h : d.table tb with
  | some t => exact ⟨t, by simpa using h⟩
  | none => cases tb <;> exact ⟨⟨[], 0⟩, rfl⟩

theorem create_idempotent {T : Type} (R : RecordType T) (proj : Row → T) (hR : R.reads proj)
    (tb : Tbl)
    (hq : parseSql (cstr R.createTableSQL) = some (.createTable tb))
    (hsel : parseSql (sqlText ("SELECT * FROM " ++ R.tableName ++ ";") (-1)) = some (.selectAll tb))
    (db : DB) (c : Nat) (hdb : db.db = some c) (w : World)
    (hu : connUsable (some c) w.conns = true) (hf : w.faults = []) :
    (Repository.new R db w).2.log = w.log ++ [.exec (some c) (cstr R.createTableSQL)] ∧
      (Repository.new R db (Repository.new R db w).2).2.log =
        (Repository.new R db w).2.log ++ [.exec (some c) (cstr R.createTableSQL)] ∧
      (db.execute R.createTableSQL (Repository.new R db w).2).1 = true ∧
      (Repository.new R db (Repository.new R db w).2).2.cerr = (Repository.new R db w).2.cerr ∧
      (Repository.new R db (Repository.new R db w).2).2.data = (Repository.new R db w).2.data ∧
      ∃ t, (Repository.new R db w).2.data.table tb = some t ∧
        ∀ fuel, t.rows.length < fuel →
          (Repository.loadAll R (Repository.new R db w).1 fuel (Repository.new R db w).2).map
              Prod.fst = some (t.rows.map proj) ∧
          (Repository.loadAll R (Repository.new R db (Repository.new R db w).2).1 fuel
              (Repository.new R db (Repository.new R db w).2).2).map Prod.fst =
            some (t.rows.map proj) := by
  obtain ⟨t, ht⟩ := table_after_create w.data tb
  obtain ⟨w1, h1, hlog1, hu1, hf1, ht1, hcerr1⟩ : ∃ w1, Repository.new R db w = (⟨db⟩, w1) ∧
      w1.log = w.log ++ [.exec (some c) (cstr R.createTableSQL)] ∧
      connUsable (some c) w1.conns = true ∧ w1.faults = [] ∧ w1.data.table tb = some t ∧
      w1.cerr = w.cerr :=
    ⟨_, (new_healthy R tb hq db c hdb w hu hf).2, rfl, hu, hf, ht, rfl⟩
  have hsame : (match w1.data.table tb with
      | some _ => w1.data
      | none => w1.data.setTable tb ⟨[], 0⟩) = w1.data := by rw [ht1]
  obtain ⟨w2, h2, hx2, hlog2, hu2, hf2, hd2, hcerr2⟩ : ∃ w2, Repository.new R db w1 = (⟨db⟩, w2) ∧
      (db.execute R.createTableSQL w1).1 = true ∧
      w2.log = w1.log ++ [.exec (some c) (cstr R.createTableSQL)] ∧
      connUsable (some c) w2.conns = true ∧ w2.faults = [] ∧ w2.data = w1.data ∧
      w2.cerr = w1.cerr :=
    ⟨_, (new_healthy R tb hq db c hdb w1 hu1 hf1).2,
      by rw [(new_healthy R tb hq db c hdb w1 hu1 hf1).1], rfl, hu1, hf1, hsame, rfl⟩
  simp only [h1, h2]
  refine ⟨hlog1, hlog2, hx2, hcerr2, hd2, t, ht1, ?_⟩
  intro fuel hfuel
  obtain ⟨l1, e1⟩ := loadAll_healthy R proj hR tb hsel ⟨db⟩ c hdb w1 t hu1 hf1 ht1 fuel hfuel
  obtain ⟨l2, e2⟩ := loadAll_healthy R proj hR tb hsel ⟨db⟩ c hdb w2 t hu2 hf2 (by rw [hd2, ht1])
    fuel hfuel
  rw [e1, e2]
  exact ⟨rfl, rfl⟩

theorem create_keeps_rows {T : Type} (R : RecordType T) (proj : Row → T) (hR : R.reads proj)
    (tb : Tbl)
    (hq : parseSql (cstr R.createTableSQL) = some (.createTable tb))
    (hsel : parseSql (sqlText ("SELECT * FROM " ++ R.tableName ++ ";") (-1)) = some (.selectAll tb))
    (db : DB) (c : Nat) (hdb : db.db = some c) (w : World)
    (hu : connUsable (some c) w.conns = true) (hf : w.faults = []) :
    (Repository.new R db w).2.data =
        (match w.data.table tb with
          | some _ => w.data
          | none => w.data.setTable tb ⟨[], 0⟩) ∧
      ∀ t, w.data.table tb = some t →
        (Repository.new R db w).2.data = w.data ∧
        (Repository.new R db (Repository.new R db w).2).2.data = w.data ∧
        ∀ fuel, t.rows.length < fuel →
          (Repository.loadAll R ⟨db⟩ fuel w).map Prod.fst = some (t.rows.map proj) ∧
          (Repository.loadAll R (Repository.new R db w).1 fuel (Repository.new R db w).2).map
              Prod.fst = some (t.rows.map proj) ∧
          (Repository.loadAll R (Repository.new R db (Repository.new R db w).2).1 fuel
              (Repository.new R db (Repository.new R db w).2).2).map Prod.fst =
            some (t.rows.map proj) := by
  have hnew := (new_healthy R tb hq db c hdb w hu hf).2
  refine ⟨by rw [hnew], ?_⟩
  intro t ht
  obtain ⟨w1, h1, hu1, hf1, hd1⟩ : ∃ w1, Repository.new R db w = (⟨db⟩, w1) ∧
      connUsable (some c) w1.conns = true ∧ w1.faults = [] ∧ w1.data = w.data :=
    ⟨_, hnew, hu, hf, by simp only [ht]⟩
  have ht1 : w1.data.table tb = some t := by rw [hd1, ht]
  obtain ⟨w2, h2, hu2, hf2, hd2⟩ : ∃ w2, Repository.new R db w1 = (⟨db⟩, w2) ∧
      connUsable (some c) w2.conns = true ∧ w2.faults = [] ∧ w2.data = w1.data :=
    ⟨_, (new_healthy R tb hq db c hdb w1 hu1 hf1).2, hu1, hf1, by simp only [ht1]⟩
  simp only [h1, h2]
  refine ⟨hd1, by rw [hd2, hd1], ?_⟩
  intro fuel hfuel
  obtain ⟨l0, e0⟩ := loadAll_healthy R proj hR tb hsel ⟨db⟩ c hdb w t hu hf ht fuel hfuel
  obtain ⟨l1, e1⟩ := loadAll_healthy R proj hR tb hsel ⟨db⟩ c hdb w1 t hu1 hf1 ht1 fuel hfuel
  obtain ⟨l2, e2⟩ := loadAll_healthy R proj hR tb hsel ⟨db⟩ c hdb w2 t hu2 hf2
    (by rw [hd2, ht1]) fuel hfuel
  rw [e0, e1, e2]
  exact ⟨rfl, rfl, rfl⟩

theorem text_createBook :
    cstr bookType.createTableSQL =
      "CREATE TABLE IF NOT EXISTS books (id INTEGER PRIMARY KEY AUTOINCREMENT, title TEXT, user_id INT, FOREIGN KEY(user_id) REFERENCES users(id));" := by
  decide

/-- C8: the Repository constructor runs the record type's create-table
statement through `DB::execute`, once; in a healthy world this makes exactly one
engine call, the `exec` of the record type's create-table statement;
constructing a second Repository of the same type on the same handle makes that
one call again, it succeeds (`execute` returns true, nothing is written to
`cerr`) and the stored data are the same after the second construction as after
the first.  Construction changes the stored data only by adding the type's
table, empty, when it was absent: when the table exists, the data after one
and after two constructions are the data from before, and `loadAll()` returns
the same sequence, the records of the stored rows, before the first
construction, after it and after the second.  This holds for the User and for
the Book repository. -/
theorem C8_create_idempotent (db : DB) (c : Nat) (hdb : db.db = some c) (w : World)
    (hu : connUsable (some c) w.conns = true) (hf : w.faults = []) :
    (∀ w1 : World,
      Repository.new userType db w1 = (⟨db⟩, (db.execute userType.createTableSQL w1).2) ∧
      Repository.new bookType db w1 = (⟨db⟩, (db.execute bookType.createTableSQL w1).2)) ∧
    ((Repository.new userType db w).2.log = w.log ++ [.exec (some c)
          "CREATE TABLE IF NOT EXISTS users (id INTEGER PRIMARY KEY AUTOINCREMENT, name TEXT, age INT);"] ∧
      (Repository.new userType db (Repository.new userType db w).2).2.log =
        (Repository.new userType db w).2.log ++ [.exec (some c)
          "CREATE TABLE IF NOT EXISTS users (id INTEGER PRIMARY KEY AUTOINCREMENT, name TEXT, age INT);"] ∧
      (db.execute userType.createTableSQL (Repository.new userType db w).2).1 = true ∧
      (Repository.new userType db (Repository.new userType db w).2).2.cerr =
        (Repository.new userType db w).2.cerr ∧
      (Repository.new userType db (Repository.new userType db w).2).2.data =
        (Repository.new userType db w).2.data ∧
      ∃ t, (Repository.new userType db w).2.data.users = some t ∧
        ∀ fuel, t.rows.length < fuel →
          (Repository.loadAll userType (Repository.new userType db w).1 fuel
              (Repository.new userType db w).2).map Prod.fst = some (t.rows.map userOfRow) ∧
          (Repository.loadAll userType (Repository.new userType db (Repository.new userType db w).2).1 fuel
              (Repository.new userType db (Repository.new userType db w).2).2).map Prod.fst =
            some (t.rows.map userOfRow)) ∧
    ((Repository.new bookType db w).2.log = w.log ++ [.exec (some c)
          "CREATE TABLE IF NOT EXISTS books (id INTEGER PRIMARY KEY AUTOINCREMENT, title TEXT, user_id INT, FOREIGN KEY(user_id) REFERENCES users(id));"] ∧
      (Repository.new bookType db (Repository.new bookType db w).2).2.log =
        (Repository.new bookType db w).2.log ++ [.exec (some c)
          "CREATE TABLE IF NOT EXISTS books (id INTEGER PRIMARY KEY AUTOINCREMENT, title TEXT, user_id INT, FOREIGN KEY(user_id) REFERENCES users(id));"] ∧
      (db.execute bookType.createTableSQL (Repository.new bookType db w).2).1 = true ∧
      (Repository.new bookType db (Repository.new bookType db w).2).2.cerr =
        (Repository.new bookType db w).2.cerr ∧
      (Repository.new bookType db (Repository.new bookType db w).2).2.data =
        (Repository.new bookType db w).2.data ∧
      ∃ t, (Repository.new bookType db w).2.data.books = some t ∧
        ∀ fuel, t.rows.length < fuel →
          (Repository.loadAll bookType (Repository.new bookType db w).1 fuel
              (Repository.new bookType db w).2).map Prod.fst = some (t.rows.map bookOfRow) ∧
          (Repository.loadAll bookType (Repository.new bookType db (Repository.new bookType db w).2).1 fuel
              (Repository.new bookType db (Repository.new bookType db w).2).2).map Prod.fst =
            some (t.rows.map bookOfRow)) ∧
    ((Repository.new userType db w).2.data =
        (match w.data.users with
          | some _ => w.data
          | none => w.data.setTable .users ⟨[], 0⟩) ∧
      ∀ t, w.data.users = some t →
        (Repository.new userType db w).2.data = w.data ∧
        (Repository.new userType db (Repository.new userType db w).2).2.data = w.data ∧
        ∀ fuel, t.rows.length < fuel →
          (Repository.loadAll userType (⟨db⟩ : Repository User) fuel w).map Prod.fst =
            some (t.rows.map userOfRow) ∧
          (Repository.loadAll userType (Repository.new userType db w).1 fuel
              (Repository.new userType db w).2).map Prod.fst = some (t.rows.map userOfRow) ∧
          (Repository.loadAll userType (Repository.new userType db (Repository.new userType db w).2).1 fuel
              (Repository.new userType db (Repository.new userType db w).2).2).map Prod.fst =
            some (t.rows.map userOfRow)) ∧
    ((Repository.new bookType db w).2.data =
        (match w.data.books with
          | some _ => w.data
          | none => w.data.setTable .books ⟨[], 0⟩) ∧
      ∀ t, w.data.books = some t →
        (Repository.new bookType db w).2.data = w.data ∧
        (Repository.new bookType db (Repository.new bookType db w).2).2.data = w.data ∧
        ∀ fuel, t.rows.length < fuel →
          (Repository.loadAll bookType (⟨db⟩ : Repository Book) fuel w).map Prod.fst =
            some (t.rows.map bookOfRow) ∧
          (Repository.loadAll bookType (Repository.new bookType db w).1 fuel
              (Repository.new bookType db w).2).map Prod.fst = some (t.rows.map bookOfRow) ∧
          (Repository.loadAll bookType (Repository.new bookType db (Repository.new bookType db w).2).1 fuel
              (Repository.new bookType db (Repository.new bookType db w).2).2).map Prod.fst =
            some (t.rows.map bookOfRow)) := by
  have hU := create_idempotent userType userOfRow userType_reads .users
    (by rw [text_createUser, parse_createUser])
    (by rw [text_selectAllUser, parse_selectAllUser]) db c hdb w hu hf
  have hB := create_idempotent bookType bookOfRow bookType_reads .books parse_createBook
    parse_selectAllBook db c hdb w hu hf
  have hKU := create_keeps_rows userType userOfRow userType_reads .users
    (by rw [text_createUser, parse_createUser])
    (by rw [text_selectAllUser, parse_selectAllUser]) db c hdb w hu hf
  have hKB := create_keeps_rows bookType bookOfRow bookType_reads .books parse_createBook
    parse_selectAllBook db c hdb w hu hf
  rw [text_createUser] at hU
  rw [text_createBook] at hB
  exact ⟨fun _ => ⟨rfl, rfl⟩, hU, hB, hKU, hKB⟩

/-- C8 at concrete inputs: on the table holding Alice, one and two
constructions leave the data as they were and `loadAll()` returns Alice before
and after; on a database without tables the first construction adds the empty
`users` table and the second changes nothing. -/
theorem C8_create_idempotent_witness :
    ((Repository.new userType ⟨some 1⟩ aliceWorld).2.data = aliceWorld.data ∧
        (Repository.new userType ⟨some 1⟩ (Repository.new userType ⟨some 1⟩ aliceWorld).2).2.data =
          aliceWorld.data ∧
        ∀ fuel, (⟨[⟨1, .text "Alice", .int 30⟩], 1⟩ : Table).rows.length < fuel →
          (Repository.loadAll userType (⟨⟨some 1⟩⟩ : Repository User) fuel aliceWorld).map Prod.fst =
            some ((⟨[⟨1, .text "Alice", .int 30⟩], 1⟩ : Table).rows.map userOfRow) ∧
          (Repository.loadAll userType (Repository.new userType ⟨some 1⟩ aliceWorld).1 fuel
              (Repository.new userType ⟨some 1⟩ aliceWorld).2).map Prod.fst =
            some ((⟨[⟨1, .text "Alice", .int 30⟩], 1⟩ : Table).rows.map userOfRow) ∧
          (Repository.loadAll userType
              (Repository.new userType ⟨some 1⟩ (Repository.new userType ⟨some 1⟩ aliceWorld).2).1
              fuel
              (Repository.new userType ⟨some 1⟩
                (Repository.new userType ⟨some 1⟩ aliceWorld).2).2).map Prod.fst =
            some ((⟨[⟨1, .text "Alice", .int 30⟩], 1⟩ : Table).rows.map userOfRow)) ∧
      (⟨[⟨1, .text "Alice", .int 30⟩], 1⟩ : Table).rows.map userOfRow = [⟨1, "Alice", 30⟩] ∧
      (Repository.new userType ⟨some 1⟩ (Repository.new userType ⟨some 1⟩ openWorld).2).2.data =
        (Repository.new userType ⟨some 1⟩ openWorld).2.data ∧
      (Repository.new userType ⟨some 1⟩ openWorld).2.data = ⟨some ⟨[], 0⟩, none⟩ :=
  ⟨(C8_create_idempotent ⟨some 1⟩ 1 rfl aliceWorld (by decide) rfl).2.2.2.1.2
      ⟨[⟨1, .text "Alice", .int 30⟩], 1⟩ rfl,
    by decide,
    (C8_create_idempotent ⟨some 1⟩ 1 rfl openWorld (by decide) rfl).2.1.2.2.2.2.1, by decide⟩

/-! ## Statement lifetime in an arbitrary world -/

theorem bindParam_head (h idx : Nat) (v : Value) (w : World) (st : Stmt) (rest : List Stmt)
    (hs : w.stmts = st :: rest) (hid : st.id = h) :
    ∃ st1, (bindParam (some h) idx v w).2.stmts = st1 :: rest ∧ st1.id = h := by
  subst hid
  unfold bindParam
  simp only [hs, findStmt, if_true]
  split
  · split
    · exact ⟨{ st with params := st.params.set (idx - 1) v }, by simp [updateStmt], rfl⟩
    · exact ⟨st, hs, rfl⟩
  · exact ⟨st, hs, rfl⟩

theorem bind_text_head (h idx : Nat) (t : String) (n : Int) (w : World) (st : Stmt)
    (rest : List Stmt) (hs : w.stmts = st :: rest) (hid : st.id = h) :
    ∃ st1, (sqlite3_bind_text (some h) idx t n w).2.stmts = st1 :: rest ∧ st1.id = h :=
  bindParam_head h idx _ (w.logCall (.bind_text (some h) idx t)) st rest hs hid

theorem bind_int_head (h idx : Nat) (v : Int) (w : World) (st : Stmt)
    (rest : List Stmt) (hs : w.stmts = st :: rest) (hid : st.id = h) :
    ∃ st1, (sqlite3_bind_int (some h) idx v w).2.stmts = st1 :: rest ∧ st1.id = h :=
  bindParam_head h idx _ (w.logCall (.bind_int (some h) idx v)) st rest hs hid

theorem step_head (h : Nat) (w : World) (st : Stmt) (rest : List Stmt)
    (hs : w.stmts = st :: rest) (hid : st.id = h) :
    ∃ st1, (sqlite3_step (some h) w).2.stmts = st1 :: rest ∧ st1.id = h ∧
      ((sqlite3_step (some h) w).1 = SQLITE_ROW → ∀ d, rowsLeft st1 d < rowsLeft st w.data) := by
  subst hid
  unfold sqlite3_step
  simp only [World.logCall, hs, findStmt, if_true, World.popFault, World.fault]
  cases nextFault w.faults with
  | some e =>
    refine ⟨st, rfl, rfl, ?_⟩
    intro hrow
    exact absurd hrow (errCode_ne e).2.1
  | none =>
    cases hc : st.cursor with
    | done =>
      refine ⟨st, rfl, rfl, ?_⟩
      intro hrow
      simp [SQLITE_MISUSE, SQLITE_ROW] at hrow
    | onRow cur rs =>
      cases rs with
      | nil =>
        refine ⟨{ st with cursor := .done }, by simp [updateStmt], rfl, ?_⟩
        intro hrow
        simp [SQLITE_DONE, SQLITE_ROW] at hrow
      | cons r rs =>
        refine ⟨{ st with cursor := .onRow r rs }, by simp [updateStmt], rfl, ?_⟩
        intro _ d
        simp [rowsLeft, hc]
    | fresh =>
      cases he : evalSql st.sql st.params w.data with
      | error e =>
        refine ⟨{ st with cursor := .done }, by simp [updateStmt], rfl, ?_⟩
        intro hrow
        exact absurd hrow (errCode_ne e).2.1
      | ok res =>
        obtain ⟨d, rows⟩ := res
        cases rows with
        | nil =>
          refine ⟨{ st with cursor := .done }, by simp [updateStmt], rfl, ?_⟩
          intro hrow
          simp [SQLITE_DONE, SQLITE_ROW] at hrow
        | cons r rs =>
          refine ⟨{ st with cursor := .onRow r rs }, by simp [updateStmt], rfl, ?_⟩
          intro _ d1
          simp [rowsLeft, hc, he]

theorem finalize_head (h : Nat) (w : World) (st : Stmt) (rest : List Stmt)
    (hs : w.stmts = st :: rest) (hid : st.id = h) :
    (sqlite3_finalize (some h) w).2.stmts = rest := by
  simp [sqlite3_finalize, World.logCall, hs, removeStmt, hid]

theorem userFromRow_stmts (stmt : Option Nat) (w : World) :
    (User.fromRow stmt w).2.stmts = w.stmts := by
  simp [User.fromRow, sqlite3_column_int, sqlite3_column_text, World.logCall]

theorem bookFromRow_stmts (stmt : Option Nat) (w : World) :
    (Book.fromRow stmt w).2.stmts = w.stmts := by
  simp [Book.fromRow, sqlite3_column_int, sqlite3_column_text, World.logCall]

theorem loadAllLoop_head {T : Type} (R : RecordType T) (hR : R.keepsStmts) (h : Nat)
    (rest : List Stmt) :
    ∀ (fuel : Nat) (items : List T) (w : World) (st : Stmt),
      w.stmts = st :: rest → st.id = h →
      (∀ r, loadAllLoop R (some h) fuel items w = some r → ∃ st1, r.2.stmts = st1 :: rest ∧ st1.id = h) ∧
      (rowsLeft st w.data < fuel → ∃ r, loadAllLoop R (some h) fuel items w = some r) := by
  intro fuel
  induction fuel with
  | zero =>
    intro items w st hs hid
    exact ⟨fun r hr => by simp [loadAllLoop] at hr, fun hlt => absurd hlt (Nat.not_lt_zero _)⟩
  | succ n ih =>
    intro items w st hs hid
    obtain ⟨st1, hs1, hid1, hdec⟩ := step_head h w st rest hs hid
    simp only [loadAllLoop]
    by_cases hrow : (sqlite3_step (some h) w).1 = SQLITE_ROW
    · simp only [hrow, if_true]
      have hs2 : (R.fromRow (some h) (sqlite3_step (some h) w).2).2.stmts = st1 :: rest := by
        rw [hR, hs1]
      obtain ⟨ih1, ih2⟩ := ih (items ++ [(R.fromRow (some h) (sqlite3_step (some h) w).2).1])
        (R.fromRow (some h) (sqlite3_step (some h) w).2).2 st1 hs2 hid1
      refine ⟨ih1, fun hlt => ih2 ?_⟩
      have := hdec hrow (R.fromRow (some h) (sqlite3_step (some h) w).2).2.data
      omega
    · simp only [hrow, if_false]
      refine ⟨fun r hr => ?_, fun _ => ⟨_, rfl⟩⟩
      simp only [Option.some.injEq] at hr
      subst hr
      exact ⟨st1, hs1, hid1⟩

theorem errmsg_stmts (db : Option Nat) (w : World) : (sqlite3_errmsg db w).2.stmts = w.stmts := by
  unfold sqlite3_errmsg
  cases db <;> rfl

theorem finalize_none_stmts (w : World) : (sqlite3_finalize none w).2.stmts = w.stmts := rfl

theorem released_of_failed_prepare (db : Option Nat) (q : String) (n : Int) (w w1 : World)
    (extra : List Call)
    (hnone : (sqlite3_prepare_v2 db q n w).2.1 = none)
    (hst : (sqlite3_prepare_v2 db q n w).2.2.stmts = w.stmts)
    (hs1 : w1.stmts = (sqlite3_prepare_v2 db q n w).2.2.stmts)
    (hl1 : w1.log = (sqlite3_prepare_v2 db q n w).2.2.log ++ extra)
    (hfin : finalizedIn extra = []) (hprep : preparedIn extra = []) :
    released w w1 := by
  refine ⟨by rw [hs1, hst], [Call.prepare_v2 db (sqlText q n) none] ++ extra, ?_, ?_, ?_⟩
  · rw [hl1, prepare_log, hnone, List.append_assoc]
  · simp only [finalizedIn, preparedIn] at hfin hprep ⊢
    simp [List.filterMap_append, hfin, hprep, Call.finalized, Call.prepared]
  · simp only [preparedIn] at hprep ⊢
    simp [List.filterMap_append, hprep, Call.prepared]

theorem released_of_prepared (db : Option Nat) (qt : String) (h : Nat) (w w0 w1 : World)
    (st : Stmt) (extra : List Call)
    (_hs0 : w0.stmts = st :: w.stmts) (hl0 : w0.log = w.log ++ [Call.prepare_v2 db qt (some h)])
    (hs1 : w1.stmts = w.stmts)
    (hl1 : w1.log = w0.log ++ extra ++ [Call.finalize (some h)])
    (hfin : finalizedIn extra = []) (hprep : preparedIn extra = []) :
    released w w1 := by
  refine ⟨hs1, [Call.prepare_v2 db qt (some h)] ++ extra ++ [Call.finalize (some h)], ?_, ?_, ?_⟩
  · rw [hl1, hl0]; simp
  · simp only [finalizedIn, preparedIn] at hfin hprep ⊢
    simp [List.filterMap_append, hfin, hprep, Call.finalized, Call.prepared]
  · simp only [preparedIn] at hprep ⊢
    simp [List.filterMap_append, hprep, Call.prepared]

theorem prepare_outcome (db : Option Nat) (q : String) (n : Int) (w : World) :
    ((sqlite3_prepare_v2 db q n w).1 ≠ SQLITE_OK ∧ (sqlite3_prepare_v2 db q n w).2.1 = none ∧
        (sqlite3_prepare_v2 db q n w).2.2.stmts = w.stmts) ∨
      ∃ h w0 st, sqlite3_prepare_v2 db q n w = (SQLITE_OK, some h, w0) ∧
        w0.stmts = st :: w.stmts ∧ st.id = h ∧
        w0.log = w.log ++ [Call.prepare_v2 db (sqlText q n) (some h)] := by
  rcases prepare_cases db q n w with ⟨hne, hnone, hst, -⟩ | ⟨sql, -, -, -, -, heq⟩
  · exact Or.inl ⟨hne, hnone, hst⟩
  · exact Or.inr ⟨_, _, _, heq, rfl, rfl, rfl⟩

theorem save_released_user (self : Repository User) (u : User) (w : World) :
    released w (Repository.save userType self u w).2 := by
  have hsave : Repository.save userType self u w =
      if (sqlite3_prepare_v2 self.db.getDB u.insertSQL (-1) w).1 ≠ SQLITE_OK then
        (false, (sqlite3_errmsg self.db.getDB
          (sqlite3_prepare_v2 self.db.getDB u.insertSQL (-1) w).2.2).2.print
            ("Prepare failed: " ++ (sqlite3_errmsg self.db.getDB
              (sqlite3_prepare_v2 self.db.getDB u.insertSQL (-1) w).2.2).1))
      else
        ((bindAndExecuteInsertUser u (sqlite3_prepare_v2 self.db.getDB u.insertSQL (-1) w).2.1
            (sqlite3_prepare_v2 self.db.getDB u.insertSQL (-1) w).2.2).1,
          (sqlite3_finalize (sqlite3_prepare_v2 self.db.getDB u.insertSQL (-1) w).2.1
            (bindAndExecuteInsertUser u (sqlite3_prepare_v2 self.db.getDB u.insertSQL (-1) w).2.1
              (sqlite3_prepare_v2 self.db.getDB u.insertSQL (-1) w).2.2).2).2) := rfl
  rw [hsave]
  rcases prepare_outcome self.db.getDB u.insertSQL (-1) w
    with ⟨hne, hnone, hst⟩ | ⟨h, w0, st, heq, hs0, hid, hl0⟩
  · refine released_of_failed_prepare _ _ _ w _ [Call.errmsg self.db.getDB] hnone hst ?_ ?_ rfl rfl
    · simp only [if_pos hne, World.print, errmsg_stmts]
    · simp only [if_pos hne, World.print, errmsg_log]
  · simp only [heq, ne_eq, not_true_eq_false, if_false, bindAndExecuteInsertUser]
    refine released_of_prepared _ _ h w w0 _ st
      [Call.bind_text (some h) 1 u.name, Call.bind_int (some h) 2 u.age, Call.step (some h)]
      hs0 hl0 ?_ ?_ rfl rfl
    · obtain ⟨s1, e1, i1⟩ := bind_text_head h 1 u.name (-1) w0 st w.stmts hs0 hid
      obtain ⟨s2, e2, i2⟩ := bind_int_head h 2 u.age _ s1 w.stmts e1 i1
      obtain ⟨s3, e3, i3, -⟩ := step_head h _ s2 w.stmts e2 i2
      exact finalize_head h _ s3 w.stmts e3 i3
    · simp [finalize_log, step_log, bind_int_log, bind_text_log]

theorem save_released_book (self : Repository Book) (b : Book) (w : World) :
    released w (Repository.save bookType self b w).2 := by
  have hsave : Repository.save bookType self b w =
      if (sqlite3_prepare_v2 self.db.getDB b.insertSQL (-1) w).1 ≠ SQLITE_OK then
        (false, (sqlite3_errmsg self.db.getDB
          (sqlite3_prepare_v2 self.db.getDB b.insertSQL (-1) w).2.2).2.print
            ("Prepare failed: " ++ (sqlite3_errmsg self.db.getDB
              (sqlite3_prepare_v2 self.db.getDB b.insertSQL (-1) w).2.2).1))
      else
        ((bindAndExecuteInsertBook b (sqlite3_prepare_v2 self.db.getDB b.insertSQL (-1) w).2.1
            (sqlite3_prepare_v2 self.db.getDB b.insertSQL (-1) w).2.2).1,
          (sqlite3_finalize (sqlite3_prepare_v2 self.db.getDB b.insertSQL (-1) w).2.1
            (bindAndExecuteInsertBook b (sqlite3_prepare_v2 self.db.getDB b.insertSQL (-1) w).2.1
              (sqlite3_prepare_v2 self.db.getDB b.insertSQL (-1) w).2.2).2).2) := rfl
  rw [hsave]
  rcases prepare_outcome self.db.getDB b.insertSQL (-1) w
    with ⟨hne, hnone, hst⟩ | ⟨h, w0, st, heq, hs0, hid, hl0⟩
  · refine released_of_failed_prepare _ _ _ w _ [Call.errmsg self.db.getDB] hnone hst ?_ ?_ rfl rfl
    · simp only [if_pos hne, World.print, errmsg_stmts]
    · simp only [if_pos hne, World.print, errmsg_log]
  · simp only [heq, ne_eq, not_true_eq_false, if_false, bindAndExecuteInsertBook]
    refine released_of_prepared _ _ h w w0 _ st
      [Call.bind_text (some h) 1 b.title, Call.bind_int (some h) 2 b.user_id, Call.step (some h)]
      hs0 hl0 ?_ ?_ rfl rfl
    · obtain ⟨s1, e1, i1⟩ := bind_text_head h 1 b.title (-1) w0 st w.stmts hs0 hid
      obtain ⟨s2, e2, i2⟩ := bind_int_head h 2 b.user_id _ s1 w.stmts e1 i1
      obtain ⟨s3, e3, i3, -⟩ := step_head h _ s2 w.stmts e2 i2
      exact finalize_head h _ s3 w.stmts e3 i3
    · simp [finalize_log, step_log, bind_int_log, bind_text_log]

theorem update_released (self : Repository User) (u : User) (w : World) :
    released w (Repository.update self u w).2 := by
  rcases prepare_outcome self.db.getDB u.updateSQL (-1) w
    with ⟨hne, hnone, hst⟩ | ⟨h, w0, st, heq, hs0, hid, hl0⟩
  · refine released_of_failed_prepare _ _ _ w _ [Call.errmsg self.db.getDB] hnone hst ?_ ?_ rfl rfl
    · unfold Repository.update
      simp only [if_pos hne, World.print, errmsg_stmts]
    · unfold Repository.update
      simp only [if_pos hne, World.print, errmsg_log]
  · unfold Repository.update
    simp only [heq, ne_eq, not_true_eq_false, if_false, bindAndExecuteUpdate]
    refine released_of_prepared _ _ h w w0 _ st
      [Call.bind_text (some h) 1 u.name, Call.bind_int (some h) 2 u.age,
        Call.bind_int (some h) 3 u.id, Call.step (some h)]
      hs0 hl0 ?_ ?_ rfl rfl
    · obtain ⟨s1, e1, i1⟩ := bind_text_head h 1 u.name (-1) w0 st w.stmts hs0 hid
      obtain ⟨s2, e2, i2⟩ := bind_int_head h 2 u.age _ s1 w.stmts e1 i1
      obtain ⟨s3, e3, i3⟩ := bind_int_head h 3 u.id _ s2 w.stmts e2 i2
      obtain ⟨s4, e4, i4, -⟩ := step_head h _ s3 w.stmts e3 i3
      exact finalize_head h _ s4 w.stmts e4 i4
    · simp [finalize_log, step_log, bind_int_log, bind_text_log]

theorem deleteById_released {T : Type} (R : RecordType T) (self : Repository T) (id : Int)
    (w : World) : released w (Repository.deleteById R self id w).2 := by
  rcases prepare_outcome self.db.getDB
      ("DELETE FROM " ++ R.tableName ++ " WHERE " ++ R.primaryKey ++ " = ?;") (-1) w
    with ⟨hne, hnone, hst⟩ | ⟨h, w0, st, heq, hs0, hid, hl0⟩
  · refine released_of_failed_prepare _ _ _ w _ [Call.errmsg self.db.getDB] hnone hst ?_ ?_ rfl rfl
    · unfold Repository.deleteById
      simp only [if_pos hne, World.print, errmsg_stmts]
    · unfold Repository.deleteById
      simp only [if_pos hne, World.print, errmsg_log]
  · unfold Repository.deleteById
    simp only [heq, ne_eq, not_true_eq_false, if_false]
    refine released_of_prepared _ _ h w w0 _ st
      [Call.bind_int (some h) 1 id, Call.step (some h)]
      hs0 hl0 ?_ ?_ rfl rfl
    · obtain ⟨s1, e1, i1⟩ := bind_int_head h 1 id w0 st w.stmts hs0 hid
      obtain ⟨s2, e2, i2, -⟩ := step_head h _ s1 w.stmts e1 i1
      exact finalize_head h _ s2 w.stmts e2 i2
    · simp [finalize_log, step_log, bind_int_log]

theorem userType_keepsStmts : userType.keepsStmts := fun stmt w => userFromRow_stmts stmt w

theorem bookType_keepsStmts : bookType.keepsStmts := fun stmt w => bookFromRow_stmts stmt w

theorem findById_released {T : Type} (R : RecordType T) (hq : R.readsQuietly)
    (hk : R.keepsStmts) (self : Repository T) (id : Int) (w : World) :
    released w (Repository.findById R self id w).2 := by
  rcases prepare_outcome self.db.getDB
      ("SELECT * FROM " ++ R.tableName ++ " WHERE " ++ R.primaryKey ++ " = ?;") (-1) w
    with ⟨hne, hnone, hst⟩ | ⟨h, w0, st, heq, hs0, hid, hl0⟩
  · refine released_of_failed_prepare _ _ _ w _
      [Call.errmsg self.db.getDB, Call.finalize none] hnone hst ?_ ?_ rfl rfl
    · unfold Repository.findById
      simp only [if_neg hne, hnone, World.print, finalize_none_stmts]
      exact errmsg_stmts _ _
    · unfold Repository.findById
      simp only [if_neg hne, hnone, finalize_log, World.print, errmsg_log, List.append_assoc,
        List.singleton_append]
  · obtain ⟨s1, e1, i1⟩ := bind_int_head h 1 id w0 st w.stmts hs0 hid
    obtain ⟨s2, e2, i2, -⟩ := step_head h _ s1 w.stmts e1 i1
    unfold Repository.findById
    simp only [heq, if_true]
    split
    · obtain ⟨l, hl, hql⟩ := hq (some h) (sqlite3_step (some h) (sqlite3_bind_int (some h) 1 id w0).2).2
      refine released_of_prepared _ _ h w w0 _ st
        ([Call.bind_int (some h) 1 id, Call.step (some h)] ++ l) hs0 hl0 ?_ ?_ ?_ ?_
      · exact finalize_head h _ s2 w.stmts (by rw [hk]; exact e2) i2
      · simp [finalize_log, hl, step_log, bind_int_log]
      · have := hql.2.2
        simp only [finalizedIn] at this ⊢
        simp [List.filterMap_append, this, Call.finalized]
      · have := hql.2.1
        simp only [preparedIn] at this ⊢
        simp [List.filterMap_append, this, Call.prepared]
    · refine released_of_prepared _ _ h w w0 _ st
        [Call.bind_int (some h) 1 id, Call.step (some h)] hs0 hl0 ?_ ?_ rfl rfl
      · exact finalize_head h _ s2 w.stmts e2 i2
      · simp [finalize_log, step_log, bind_int_log]

theorem loadAll_released {T : Type} (R : RecordType T) (hq : R.readsQuietly)
    (hk : R.keepsStmts) (self : Repository T) (w : World) :
    (∀ fuel r, Repository.loadAll R self fuel w = some r → released w r.2) ∧
      ∃ fuel0, ∀ fuel, fuel0 ≤ fuel → ∃ r, Repository.loadAll R self fuel w = some r := by
  rcases prepare_outcome self.db.getDB ("SELECT * FROM " ++ R.tableName ++ ";") (-1) w
    with ⟨hne, hnone, hst⟩ | ⟨h, w0, st, heq, hs0, hid, hl0⟩
  · constructor
    · intro fuel r hr
      unfold Repository.loadAll at hr
      simp only [if_neg hne, hnone, Option.some.injEq] at hr
      subst hr
      refine released_of_failed_prepare _ _ _ w _
        [Call.errmsg self.db.getDB, Call.finalize none] hnone hst ?_ ?_ rfl rfl
      · simp only [World.print, finalize_none_stmts]
        exact errmsg_stmts _ _
      · simp only [finalize_log, World.print, errmsg_log, List.append_assoc,
          List.singleton_append]
    · refine ⟨0, fun fuel _ => ?_⟩
      unfold Repository.loadAll
      simp only [if_neg hne]
      exact ⟨_, rfl⟩
  · constructor
    · intro fuel r hr
      unfold Repository.loadAll at hr
      simp only [heq, if_true] at hr
      split at hr
      · simp at hr
      · rename_i items w2 hloop
        simp only [Option.some.injEq] at hr
        subst hr
        obtain ⟨l, hl, hql⟩ := loadAllLoop_log R hq (some h) fuel [] w0 _ hloop
        obtain ⟨s1, e1, i1⟩ := (loadAllLoop_head R hk h w.stmts fuel [] w0 st hs0 hid).1 _ hloop
        refine released_of_prepared _ _ h w w0 _ st l hs0 hl0 ?_ ?_ hql.2.2 hql.2.1
        · exact finalize_head h _ s1 w.stmts e1 i1
        · simp only [finalize_log]
          simp only [] at hl
          rw [hl]
    · refine ⟨rowsLeft st w0.data + 1, fun fuel hfuel => ?_⟩
      obtain ⟨r, hr⟩ := (loadAllLoop_head R hk h w.stmts fuel [] w0 st hs0 hid).2 (by omega)
      unfold Repository.loadAll
      simp only [heq, if_true, hr]
      exact ⟨_, rfl⟩

/-! ## C6 -/

/-- C6: in every world, whatever the connection state, the stored data and the
failures scheduled for prepare and step, each of save, loadAll, findById,
update and deleteById (for the User and for the Book repository; update exists
for User only) returns with the live prepared statements exactly as they were,
and the calls it made finalize exactly the statement it prepared, once; a
failed prepare leaves no statement behind, also on the early returns of save,
update and deleteById.  `loadAll` does return: from some bound on, every fuel
gives a result. -/
theorem C6_statements_released (selfU : Repository User) (selfB : Repository Book) (u : User)
    (b : Book) (id : Int) (w : World) :
    released w (Repository.save userType selfU u w).2 ∧
      released w (Repository.save bookType selfB b w).2 ∧
      (∀ fuel r, Repository.loadAll userType selfU fuel w = some r → released w r.2) ∧
      (∃ fuel0, ∀ fuel, fuel0 ≤ fuel → ∃ r, Repository.loadAll userType selfU fuel w = some r) ∧
      (∀ fuel r, Repository.loadAll bookType selfB fuel w = some r → released w r.2) ∧
      (∃ fuel0, ∀ fuel, fuel0 ≤ fuel → ∃ r, Repository.loadAll bookType selfB fuel w = some r) ∧
      released w (Repository.findById userType selfU id w).2 ∧
      released w (Repository.findById bookType selfB id w).2 ∧
      released w (Repository.update selfU u w).2 ∧
      released w (Repository.deleteById userType selfU id w).2 ∧
      released w (Repository.deleteById bookType selfB id w).2 :=
  ⟨save_released_user selfU u w, save_released_book selfB b w,
    (loadAll_released userType userType_readsQuietly userType_keepsStmts selfU w).1,
    (loadAll_released userType userType_readsQuietly userType_keepsStmts selfU w).2,
    (loadAll_released bookType bookType_readsQuietly bookType_keepsStmts selfB w).1,
    (loadAll_released bookType bookType_readsQuietly bookType_keepsStmts selfB w).2,
    findById_released userType userType_readsQuietly userType_keepsStmts selfU id w,
    findById_released bookType bookType_readsQuietly bookType_keepsStmts selfB id w,
    update_released selfU u w,
    deleteById_released userType selfU id w,
    deleteById_released bookType selfB id w⟩

/-- C6 at concrete inputs: the `loadAll` of the one-row table, and a `save`
whose prepare fails with the busy code. -/
theorem C6_statements_released_witness :
    Repository.loadAll userType repo1 5 aliceWorld = some ([⟨1, "Alice", 30⟩], aliceLoaded) ∧
      released aliceWorld aliceLoaded ∧
      (Repository.save userType repo1 (User.new "Bob" 31) busyWorld).1 = false ∧
      released busyWorld (Repository.save userType repo1 (User.new "Bob" 31) busyWorld).2 :=
  ⟨by decide,
    (C6_statements_released repo1 ⟨⟨some 1⟩⟩ User.default Book.default 0 aliceWorld).2.2.1 5
      ([⟨1, "Alice", 30⟩], aliceLoaded) (by decide),
    by decide,
    (C6_statements_released repo1 ⟨⟨some 1⟩⟩ (User.new "Bob" 31) Book.default 0 busyWorld).1⟩

end Gcpporm
